import Mathlib

/-!
Verification development for the `tego` TMX map-loading library.

Each Rust item of the library is embedded as an executable Lean definition,
keeping the source's names wherever Lean allows it.  Machine integers are
modelled as `Nat`/`Int` with explicit bounds where overflow matters; fallible
Rust functions (`Result`) are modelled with `Except`/`Res`, and Rust panics
(`assert!`, `todo!`, `unwrap`, index out of bounds, arithmetic overflow in
debug builds) are modelled with an explicit `Res.panic` outcome so that
"returns an error" and "panics" are distinguishable statements.

External crates used by the library (the base64 codec, the libflate
zlib/gzip decoders, and Rust floating-point parsing) are treated as abstract
parameters of the embedding: no claim depends on their internal behaviour,
only on whether they succeed or fail.
-/

deriving instance DecidableEq for Except

namespace Tego

/-- Outcome of running a piece of Rust code that may return a value, return
an `Err`, or panic.  `panic` carries the panic message. -/
inductive Res (ε : Type) (α : Type) where
  | ok : α → Res ε α
  | err : ε → Res ε α
  | panic : String → Res ε α
  deriving Repr, DecidableEq

/-- Monadic bind for `Res`, mirroring the `?` operator on `Result` (panics
propagate as panics, errors as errors). -/
def Res.bind {ε α β : Type} : Res ε α → (α → Res ε β) → Res ε β
  | .ok a, f => f a
  | .err e, _ => .err e
  | .panic m, _ => .panic m

instance {ε : Type} : Monad (Res ε) where
  pure := Res.ok
  bind := Res.bind

/-- Error enum from `src/errors.rs`.  The payloads (`Box<dyn Error>`,
`std::io::Error`) are modelled as message strings.

The `propertyTypeError` variant is returned by every typed accessor in
`src/property.rs` but its declaration is not part of the `errors.rs` of this
snapshot.  Modelled from the spec: section 7 lists `PropertyTypeError -
accessor/variant mismatch on a property value` as a distinct error kind with
no payload. -/
inductive Err where
  | structureError (tag msg : String)
  | parseError (msg : String)
  | io (msg : String)
  | unsupportedFeature (msg : String)
  | propertyTypeError
  deriving Repr, DecidableEq

/-- `const GID_HORIZONTAL_FLIP_FLAG: u32 = 0x80000000` -/
def GID_HORIZONTAL_FLIP_FLAG : Nat := 0x80000000

/-- `const GID_VERTICAL_FLIP_FLAG: u32 = 0x40000000` -/
def GID_VERTICAL_FLIP_FLAG : Nat := 0x40000000

/-- `const GID_DIAGONAL_FLIP_FLAG: u32 = 0x20000000` -/
def GID_DIAGONAL_FLIP_FLAG : Nat := 0x20000000

/-- `const GID_FLIP_MASK: u32` - or of the three flip flags. -/
def GID_FLIP_MASK : Nat :=
  GID_HORIZONTAL_FLIP_FLAG ||| GID_VERTICAL_FLIP_FLAG ||| GID_DIAGONAL_FLIP_FLAG

/-- A `GID` is a `NonZeroU32` in the source; we model it as the raw `u32`
value (a `Nat` that is nonzero and below `2^32` at every construction site). -/
def GID := Nat

instance : DecidableEq GID := fun a b => Nat.decEq a b

instance : OfNat GID n := ⟨(n : Nat)⟩

/-- `GID::as_raw` - the underlying `u32`. -/
def GID.as_raw (g : GID) : Nat := g

/-- `GID::to_id` - `self.as_raw() & !GID_FLIP_MASK` (`!` is complement on
`u32`, i.e. xor with `0xFFFFFFFF`). -/
def GID.to_id (g : GID) : Nat := g.as_raw &&& (0xFFFFFFFF ^^^ GID_FLIP_MASK)

/-- `GID::flip_horizontal`. -/
def GID.flip_horizontal (g : GID) : Bool :=
  g.as_raw &&& GID_HORIZONTAL_FLIP_FLAG == GID_HORIZONTAL_FLIP_FLAG

/-- `GID::flip_vertical`. -/
def GID.flip_vertical (g : GID) : Bool :=
  g.as_raw &&& GID_VERTICAL_FLIP_FLAG == GID_VERTICAL_FLIP_FLAG

/-- `GID::flip_diagonal`. -/
def GID.flip_diagonal (g : GID) : Bool :=
  g.as_raw &&& GID_DIAGONAL_FLIP_FLAG == GID_DIAGONAL_FLIP_FLAG

/-- An 8 bit RGB color with alpha value: `pub struct Color(u32)` from
`src/lib.rs`. -/
structure Color where
  val : Nat
  deriving Repr, DecidableEq

/-- `Color::from_argb` - packs four bytes as `a<<24 | r<<16 | g<<8 | b<<0`. -/
def Color.from_argb (a r g b : Nat) : Color :=
  ⟨(a <<< 24) ||| (r <<< 16) ||| (g <<< 8) ||| (b <<< 0)⟩

/-- `Color::alpha` - `(self.0 >> 24) & 0xFF`. -/
def Color.alpha (c : Color) : Nat := (c.val >>> 24) &&& 0xFF

/-- `Color::red` - `(self.0 >> 16) & 0xFF`. -/
def Color.red (c : Color) : Nat := (c.val >>> 16) &&& 0xFF

/-- `Color::green` - `(self.0 >> 8) & 0xFF`. -/
def Color.green (c : Color) : Nat := (c.val >>> 8) &&& 0xFF

/-- `Color::blue` - `(self.0 >> 0) & 0xFF`. -/
def Color.blue (c : Color) : Nat := (c.val >>> 0) &&& 0xFF

/-- `Color::default()` is `Color(0)` (derived `Default`). -/
def Color.default : Color := ⟨0⟩

/-- `char::to_digit(16)` as used by `u32::from_str_radix(_, 16)`: the value
of one hexadecimal digit. -/
def hexDigit? (c : Char) : Option Nat :=
  let n := c.toNat
  -- 48..57 are the codes of the digits, 97..102 of the lowercase and
  -- 65..70 of the uppercase hex letters
  if 48 ≤ n ∧ n ≤ 57 then some (n - 48)
  else if 97 ≤ n ∧ n ≤ 102 then some (n - 97 + 10)
  else if 65 ≤ n ∧ n ≤ 70 then some (n - 65 + 10)
  else none

/-- Digit loop of `u32::from_str_radix(_, 16)`: accumulate hex digits with a
`u32` overflow check at every step; `none` on a non-digit or on overflow. -/
def parseHexDigits : Nat → List Char → Option Nat
  | acc, [] => some acc
  | acc, c :: cs =>
    match hexDigit? c with
    | none => none
    | some d =>
      if acc * 16 + d < 2 ^ 32 then parseHexDigits (acc * 16 + d) cs else none

/-- `u32::from_str_radix(s, 16)`: an optional leading plus sign, then one or
more hex digits (an empty digit sequence is an error); a leading minus sign
is rejected for the unsigned type. -/
def u32FromStrRadix16 (s : String) : Option Nat :=
  let cs := s.data
  let ds := if cs.head? = some '+' then cs.tail else cs
  if ds.isEmpty then none else parseHexDigits 0 ds

/-- `Color::from_str` from `src/lib.rs`: strip the leading hash, then an
8-digit string is read as AARRGGBB via `u32::from_str_radix(_,16)` and
`to_be_bytes`, a 6-digit string the same with implicit alpha `255`, and any
other length is an invalid-color parse error. -/
def Color.from_str (s : String) : Except Err Color :=
  let mkError : Err := .parseError ("Invalid color string, expected #AARRGGBB, got " ++ s)
  match s.data with
  | c :: rest =>
    if c = '#' then
      if rest.length = 8 then
        match u32FromStrRadix16 (String.mk rest) with
        | none => .error (.parseError "invalid digit found in string")
        | some v =>
          -- `to_be_bytes` of the parsed u32, then `from_argb(a, r, g, b)`
          .ok (Color.from_argb ((v >>> 24) &&& 0xFF) ((v >>> 16) &&& 0xFF)
            ((v >>> 8) &&& 0xFF) (v &&& 0xFF))
      else if rest.length = 6 then
        match u32FromStrRadix16 (String.mk rest) with
        | none => .error (.parseError "invalid digit found in string")
        | some v =>
          -- the first byte of `to_be_bytes` is discarded and alpha is 255
          .ok (Color.from_argb 255 ((v >>> 16) &&& 0xFF) ((v >>> 8) &&& 0xFF) (v &&& 0xFF))
      else .error mkError
    else .error mkError
  | [] => .error mkError

/-- Value of a pair of hex digits, e.g. the `AA` pair of `#AARRGGBB`. -/
def hexPair (x y : Char) : Nat := 16 * (hexDigit? x).getD 0 + (hexDigit? y).getD 0

/-- Reference value of a hex digit string under accumulator `acc`. -/
def hexValAcc : Nat → List Char → Nat
  | acc, [] => acc
  | acc, c :: cs => hexValAcc (acc * 16 + (hexDigit? c).getD 0) cs

theorem hexDigit?_lt_16 {c : Char} {d : Nat} (h : hexDigit? c = some d) : d < 16 := by
  simp only [hexDigit?] at h
  split at h
  · cases h; omega
  · split at h
    · cases h; omega
    · split at h
      · cases h; omega
      · cases h

theorem le_hexValAcc (cs : List Char) (acc : Nat) : acc ≤ hexValAcc acc cs := by
  induction cs generalizing acc with
  | nil => simp [hexValAcc]
  | cons c cs ih =>
    calc acc ≤ acc * 16 + (hexDigit? c).getD 0 := by omega
    _ ≤ _ := ih _

theorem hexValAcc_lt (cs : List Char) (acc : Nat)
    (h : ∀ c ∈ cs, (hexDigit? c).isSome) :
    hexValAcc acc cs < (acc + 1) * 16 ^ cs.length := by
  induction cs generalizing acc with
  | nil => simp [hexValAcc]
  | cons c cs ih =>
    have hc : (hexDigit? c).isSome := h c (by simp)
    obtain ⟨d, hd⟩ := Option.isSome_iff_exists.mp hc
    have hd16 : d < 16 := hexDigit?_lt_16 hd
    have hgd : (hexDigit? c).getD 0 = d := by rw [hd]; rfl
    have step := ih (acc * 16 + (hexDigit? c).getD 0) (fun x hx => h x (by simp [hx]))
    calc hexValAcc acc (c :: cs) = hexValAcc (acc * 16 + (hexDigit? c).getD 0) cs := rfl
    _ < (acc * 16 + (hexDigit? c).getD 0 + 1) * 16 ^ cs.length := step
    _ ≤ ((acc + 1) * 16) * 16 ^ cs.length := by
      have hle : acc * 16 + (hexDigit? c).getD 0 + 1 ≤ (acc + 1) * 16 := by
        rw [hgd]; omega
      exact mul_le_mul_right' hle _
    _ = (acc + 1) * 16 ^ (c :: cs).length := by
      rw [List.length_cons, pow_succ]; ring

theorem parseHexDigits_eq_some (cs : List Char) (acc : Nat)
    (hall : ∀ c ∈ cs, (hexDigit? c).isSome)
    (hlt : hexValAcc acc cs < 2 ^ 32) :
    parseHexDigits acc cs = some (hexValAcc acc cs) := by
  induction cs generalizing acc with
  | nil => simp [parseHexDigits, hexValAcc]
  | cons c cs ih =>
    have hc : (hexDigit? c).isSome := hall c (by simp)
    obtain ⟨d, hd⟩ := Option.isSome_iff_exists.mp hc
    have hgd : (hexDigit? c).getD 0 = d := by rw [hd]; rfl
    have h2 : hexValAcc acc (c :: cs) = hexValAcc (acc * 16 + d) cs := by
      show hexValAcc (acc * 16 + (hexDigit? c).getD 0) cs = _
      rw [hgd]
    have hstep : acc * 16 + d < 2 ^ 32 := by
      have h1 : acc * 16 + d ≤ hexValAcc (acc * 16 + d) cs := le_hexValAcc _ _
      rw [h2] at hlt
      omega
    rw [h2]
    simp only [parseHexDigits, hd]
    rw [if_pos hstep]
    exact ih (acc * 16 + d) (fun x hx => hall x (by simp [hx])) (h2 ▸ hlt)

theorem parseHexDigits_eq_none (cs : List Char) (acc : Nat)
    (h : ∃ c ∈ cs, hexDigit? c = none) :
    parseHexDigits acc cs = none := by
  induction cs generalizing acc with
  | nil => simp at h
  | cons c cs ih =>
    obtain ⟨x, hx, hnone⟩ := h
    simp only [List.mem_cons] at hx
    rcases hx with rfl | hx
    · simp [parseHexDigits, hnone]
    · cases hd : hexDigit? c with
      | none => simp [parseHexDigits, hd]
      | some d =>
        simp only [parseHexDigits, hd]
        split
        · exact ih _ ⟨x, hx, hnone⟩
        · rfl

theorem Color.from_argb_val (a r g b : Nat)
    (hr : r < 256) (hg : g < 256) (hb : b < 256) :
    (Color.from_argb a r g b).val = a * 2 ^ 24 + r * 2 ^ 16 + g * 2 ^ 8 + b := by
  show ((a <<< 24) ||| (r <<< 16) ||| (g <<< 8) ||| (b <<< 0)) = _
  rw [Nat.shiftLeft_eq, Nat.shiftLeft_eq, Nat.shiftLeft_eq, Nat.shiftLeft_eq]
  have h1 : r * 2 ^ 16 < 2 ^ 24 :=
    calc r * 2 ^ 16 < 256 * 2 ^ 16 := (Nat.mul_lt_mul_right (by norm_num)).mpr hr
    _ = 2 ^ 24 := by norm_num
  have h2 : g * 2 ^ 8 < 2 ^ 16 :=
    calc g * 2 ^ 8 < 256 * 2 ^ 8 := (Nat.mul_lt_mul_right (by norm_num)).mpr hg
    _ = 2 ^ 16 := by norm_num
  have h3 : b * 2 ^ 0 < 2 ^ 8 := by simpa using hb
  have e1 : a * 2 ^ 24 ||| r * 2 ^ 16 = a * 2 ^ 24 + r * 2 ^ 16 := by
    calc a * 2 ^ 24 ||| r * 2 ^ 16 = 2 ^ 24 * a ||| r * 2 ^ 16 := by rw [Nat.mul_comm]
    _ = 2 ^ 24 * a + r * 2 ^ 16 := (Nat.mul_add_lt_is_or h1 a).symm
    _ = a * 2 ^ 24 + r * 2 ^ 16 := by ring
  have e2 : (a * 2 ^ 24 + r * 2 ^ 16) ||| g * 2 ^ 8 =
      a * 2 ^ 24 + r * 2 ^ 16 + g * 2 ^ 8 := by
    have hrw : a * 2 ^ 24 + r * 2 ^ 16 = 2 ^ 16 * (a * 2 ^ 8 + r) := by ring
    calc (a * 2 ^ 24 + r * 2 ^ 16) ||| g * 2 ^ 8
        = 2 ^ 16 * (a * 2 ^ 8 + r) ||| g * 2 ^ 8 := by rw [hrw]
    _ = 2 ^ 16 * (a * 2 ^ 8 + r) + g * 2 ^ 8 := (Nat.mul_add_lt_is_or h2 _).symm
    _ = a * 2 ^ 24 + r * 2 ^ 16 + g * 2 ^ 8 := by ring
  have e3 : (a * 2 ^ 24 + r * 2 ^ 16 + g * 2 ^ 8) ||| b * 2 ^ 0 =
      a * 2 ^ 24 + r * 2 ^ 16 + g * 2 ^ 8 + b * 2 ^ 0 := by
    have hrw : a * 2 ^ 24 + r * 2 ^ 16 + g * 2 ^ 8 =
        2 ^ 8 * (a * 2 ^ 16 + r * 2 ^ 8 + g) := by ring
    calc (a * 2 ^ 24 + r * 2 ^ 16 + g * 2 ^ 8) ||| b * 2 ^ 0
        = 2 ^ 8 * (a * 2 ^ 16 + r * 2 ^ 8 + g) ||| b * 2 ^ 0 := by rw [hrw]
    _ = 2 ^ 8 * (a * 2 ^ 16 + r * 2 ^ 8 + g) + b * 2 ^ 0 := (Nat.mul_add_lt_is_or h3 _).symm
    _ = a * 2 ^ 24 + r * 2 ^ 16 + g * 2 ^ 8 + b * 2 ^ 0 := by ring
  rw [e1, e2, e3]
  ring

theorem nat_and_255 (n : Nat) : n &&& 255 = n % 256 := by
  have := @Nat.and_pow_two_sub_one_eq_mod n 8
  simpa using this

theorem Color.alpha_from_argb (a r g b : Nat)
    (ha : a < 256) (hr : r < 256) (hg : g < 256) (hb : b < 256) :
    (Color.from_argb a r g b).alpha = a := by
  show ((Color.from_argb a r g b).val >>> 24) &&& 0xFF = a
  rw [Color.from_argb_val a r g b hr hg hb, Nat.shiftRight_eq_div_pow]
  rw [show (0xFF : Nat) = 255 from rfl, nat_and_255]
  omega

theorem Color.red_from_argb (a r g b : Nat)
    (hr : r < 256) (hg : g < 256) (hb : b < 256) :
    (Color.from_argb a r g b).red = r := by
  show ((Color.from_argb a r g b).val >>> 16) &&& 0xFF = r
  rw [Color.from_argb_val a r g b hr hg hb, Nat.shiftRight_eq_div_pow]
  rw [show (0xFF : Nat) = 255 from rfl, nat_and_255]
  omega

theorem Color.green_from_argb (a r g b : Nat)
    (hr : r < 256) (hg : g < 256) (hb : b < 256) :
    (Color.from_argb a r g b).green = g := by
  show ((Color.from_argb a r g b).val >>> 8) &&& 0xFF = g
  rw [Color.from_argb_val a r g b hr hg hb, Nat.shiftRight_eq_div_pow]
  rw [show (0xFF : Nat) = 255 from rfl, nat_and_255]
  omega

theorem Color.blue_from_argb (a r g b : Nat)
    (hr : r < 256) (hg : g < 256) (hb : b < 256) :
    (Color.from_argb a r g b).blue = b := by
  show ((Color.from_argb a r g b).val >>> 0) &&& 0xFF = b
  rw [Color.from_argb_val a r g b hr hg hb, Nat.shiftRight_eq_div_pow]
  rw [show (0xFF : Nat) = 255 from rfl, nat_and_255]
  omega

theorem hexPair_lt {x y : Char} (hx : (hexDigit? x).isSome) (hy : (hexDigit? y).isSome) :
    hexPair x y < 256 := by
  obtain ⟨dx, hdx⟩ := Option.isSome_iff_exists.mp hx
  obtain ⟨dy, hdy⟩ := Option.isSome_iff_exists.mp hy
  have h1 := hexDigit?_lt_16 hdx
  have h2 := hexDigit?_lt_16 hdy
  simp only [hexPair, hdx, hdy, Option.getD_some]
  omega

/-- Evaluation of `Color.from_str` on a string that does start with a hash. -/
theorem from_str_hash (rest : List Char) :
    Color.from_str ⟨'#' :: rest⟩ =
      (if rest.length = 8 then
        match u32FromStrRadix16 (String.mk rest) with
        | none => .error (.parseError "invalid digit found in string")
        | some v =>
          .ok (Color.from_argb ((v >>> 24) &&& 0xFF) ((v >>> 16) &&& 0xFF)
            ((v >>> 8) &&& 0xFF) (v &&& 0xFF))
      else if rest.length = 6 then
        match u32FromStrRadix16 (String.mk rest) with
        | none => .error (.parseError "invalid digit found in string")
        | some v =>
          .ok (Color.from_argb 255 ((v >>> 16) &&& 0xFF) ((v >>> 8) &&& 0xFF) (v &&& 0xFF))
      else
        .error (.parseError
          ("Invalid color string, expected #AARRGGBB, got " ++ String.mk ('#' :: rest)))) := by
  rfl

theorem u32FromStrRadix16_eval (c : Char) (cs : List Char) (hc : c ≠ '+') :
    u32FromStrRadix16 (String.mk (c :: cs)) = parseHexDigits 0 (c :: cs) := by
  unfold u32FromStrRadix16
  simp [hc]

theorem hex_not_plus {c : Char} (h : (hexDigit? c).isSome) : c ≠ '+' := by
  intro hEq
  rw [hEq] at h
  simp [show hexDigit? '+' = none from by decide] at h

theorem color_parse_hex8 (c1 c2 c3 c4 c5 c6 c7 c8 : Char)
    (h : ∀ c ∈ [c1, c2, c3, c4, c5, c6, c7, c8], (hexDigit? c).isSome) :
    Color.from_str ⟨'#' :: [c1, c2, c3, c4, c5, c6, c7, c8]⟩ =
      .ok (Color.from_argb (hexPair c1 c2) (hexPair c3 c4) (hexPair c5 c6) (hexPair c7 c8)) := by
  have h1 : (hexDigit? c1).isSome := h c1 (by simp)
  have h2 : (hexDigit? c2).isSome := h c2 (by simp)
  have h3 : (hexDigit? c3).isSome := h c3 (by simp)
  have h4 : (hexDigit? c4).isSome := h c4 (by simp)
  have h5 : (hexDigit? c5).isSome := h c5 (by simp)
  have h6 : (hexDigit? c6).isSome := h c6 (by simp)
  have h7 : (hexDigit? c7).isSome := h c7 (by simp)
  have h8 : (hexDigit? c8).isSome := h c8 (by simp)
  have hA := hexPair_lt h1 h2
  have hR := hexPair_lt h3 h4
  have hG := hexPair_lt h5 h6
  have hB := hexPair_lt h7 h8
  have hbound : hexValAcc 0 [c1, c2, c3, c4, c5, c6, c7, c8] < 2 ^ 32 := by
    have h0 := hexValAcc_lt [c1, c2, c3, c4, c5, c6, c7, c8] 0 h
    have hpow : ((0 : Nat) + 1) * 16 ^ ([c1, c2, c3, c4, c5, c6, c7, c8].length) = 2 ^ 32 := by
      norm_num
    rw [hpow] at h0
    exact h0
  have hu : u32FromStrRadix16 (String.mk [c1, c2, c3, c4, c5, c6, c7, c8]) =
      some (hexValAcc 0 [c1, c2, c3, c4, c5, c6, c7, c8]) := by
    rw [u32FromStrRadix16_eval c1 _ (hex_not_plus h1)]
    exact parseHexDigits_eq_some _ 0 h hbound
  have hV : hexValAcc 0 [c1, c2, c3, c4, c5, c6, c7, c8] =
      hexPair c1 c2 * 16777216 + hexPair c3 c4 * 65536 + hexPair c5 c6 * 256 + hexPair c7 c8 := by
    simp only [hexValAcc, hexPair]
    ring
  rw [from_str_hash, if_pos (by simp), hu]
  have e24 : (hexValAcc 0 [c1, c2, c3, c4, c5, c6, c7, c8] >>> 24) &&& 0xFF = hexPair c1 c2 := by
    rw [Nat.shiftRight_eq_div_pow, show (0xFF : Nat) = 255 from rfl, nat_and_255, hV,
      show (2 : Nat) ^ 24 = 16777216 from by norm_num]
    omega
  have e16 : (hexValAcc 0 [c1, c2, c3, c4, c5, c6, c7, c8] >>> 16) &&& 0xFF = hexPair c3 c4 := by
    rw [Nat.shiftRight_eq_div_pow, show (0xFF : Nat) = 255 from rfl, nat_and_255, hV,
      show (2 : Nat) ^ 16 = 65536 from by norm_num]
    omega
  have e08 : (hexValAcc 0 [c1, c2, c3, c4, c5, c6, c7, c8] >>> 8) &&& 0xFF = hexPair c5 c6 := by
    rw [Nat.shiftRight_eq_div_pow, show (0xFF : Nat) = 255 from rfl, nat_and_255, hV,
      show (2 : Nat) ^ 8 = 256 from by norm_num]
    omega
  have e00 : hexValAcc 0 [c1, c2, c3, c4, c5, c6, c7, c8] &&& 0xFF = hexPair c7 c8 := by
    rw [show (0xFF : Nat) = 255 from rfl, nat_and_255, hV]
    omega
  simp only [e24, e16, e08, e00]

theorem color_parse_hex6 (c1 c2 c3 c4 c5 c6 : Char)
    (h : ∀ c ∈ [c1, c2, c3, c4, c5, c6], (hexDigit? c).isSome) :
    Color.from_str ⟨'#' :: [c1, c2, c3, c4, c5, c6]⟩ =
      .ok (Color.from_argb 255 (hexPair c1 c2) (hexPair c3 c4) (hexPair c5 c6)) := by
  have h1 : (hexDigit? c1).isSome := h c1 (by simp)
  have h2 : (hexDigit? c2).isSome := h c2 (by simp)
  have h3 : (hexDigit? c3).isSome := h c3 (by simp)
  have h4 : (hexDigit? c4).isSome := h c4 (by simp)
  have h5 : (hexDigit? c5).isSome := h c5 (by simp)
  have h6 : (hexDigit? c6).isSome := h c6 (by simp)
  have hR := hexPair_lt h1 h2
  have hG := hexPair_lt h3 h4
  have hB := hexPair_lt h5 h6
  have hbound : hexValAcc 0 [c1, c2, c3, c4, c5, c6] < 2 ^ 32 := by
    have h0 := hexValAcc_lt [c1, c2, c3, c4, c5, c6] 0 h
    have hpow : ((0 : Nat) + 1) * 16 ^ ([c1, c2, c3, c4, c5, c6].length) < 2 ^ 32 := by
      norm_num
    omega
  have hu : u32FromStrRadix16 (String.mk [c1, c2, c3, c4, c5, c6]) =
      some (hexValAcc 0 [c1, c2, c3, c4, c5, c6]) := by
    rw [u32FromStrRadix16_eval c1 _ (hex_not_plus h1)]
    exact parseHexDigits_eq_some _ 0 h hbound
  have hV : hexValAcc 0 [c1, c2, c3, c4, c5, c6] =
      hexPair c1 c2 * 65536 + hexPair c3 c4 * 256 + hexPair c5 c6 := by
    simp only [hexValAcc, hexPair]
    ring
  rw [from_str_hash, if_neg (by simp), if_pos (by simp), hu]
  have e16 : (hexValAcc 0 [c1, c2, c3, c4, c5, c6] >>> 16) &&& 0xFF = hexPair c1 c2 := by
    rw [Nat.shiftRight_eq_div_pow, show (0xFF : Nat) = 255 from rfl, nat_and_255, hV,
      show (2 : Nat) ^ 16 = 65536 from by norm_num]
    omega
  have e08 : (hexValAcc 0 [c1, c2, c3, c4, c5, c6] >>> 8) &&& 0xFF = hexPair c3 c4 := by
    rw [Nat.shiftRight_eq_div_pow, show (0xFF : Nat) = 255 from rfl, nat_and_255, hV,
      show (2 : Nat) ^ 8 = 256 from by norm_num]
    omega
  have e00 : hexValAcc 0 [c1, c2, c3, c4, c5, c6] &&& 0xFF = hexPair c5 c6 := by
    rw [show (0xFF : Nat) = 255 from rfl, nat_and_255, hV]
    omega
  simp only [e16, e08, e00]

theorem from_str_no_hash (s : String) (h : s.data.head? ≠ some '#') :
    (Color.from_str s).isOk = false := by
  obtain ⟨data⟩ := s
  cases data with
  | nil => rfl
  | cons c rest =>
    have hc : ¬(c = '#') := by simpa using h
    simp only [Color.from_str, if_neg hc]
    rfl

theorem from_str_bad_length (cs : List Char) (h : cs.length = 4 ∨ cs.length = 10) :
    (Color.from_str ⟨'#' :: cs⟩).isOk = false := by
  rcases h with h | h <;>
    rw [from_str_hash, if_neg (by simp [h]), if_neg (by simp [h])] <;> rfl

theorem u32FromStrRadix16_none (cs : List Char)
    (h : ∃ c ∈ (if cs.head? = some '+' then cs.tail else cs), hexDigit? c = none) :
    u32FromStrRadix16 (String.mk cs) = none := by
  have hds : u32FromStrRadix16 (String.mk cs) =
      (if (if cs.head? = some '+' then cs.tail else cs).isEmpty then none
       else parseHexDigits 0 (if cs.head? = some '+' then cs.tail else cs)) := rfl
  rw [hds]
  by_cases he : (if cs.head? = some '+' then cs.tail else cs).isEmpty
  · rw [if_pos he]
  · rw [if_neg he]
    exact parseHexDigits_eq_none _ _ h

theorem from_str_bad_digit (cs : List Char)
    (h : ∃ c ∈ (if cs.head? = some '+' then cs.tail else cs), hexDigit? c = none) :
    (Color.from_str ⟨'#' :: cs⟩).isOk = false := by
  rw [from_str_hash]
  by_cases h8 : cs.length = 8
  · rw [if_pos h8, u32FromStrRadix16_none cs h]
    rfl
  · by_cases h6 : cs.length = 6
    · rw [if_neg h8, if_pos h6, u32FromStrRadix16_none cs h]
      rfl
    · rw [if_neg h8, if_neg h6]
      rfl

/-- C9 (amended): for strings made of a hash followed by 8 hex digits,
parsing succeeds with the AARRGGBB reading and the four channel accessors
reproduce the four hex pairs; a hash followed by 6 hex digits likewise with
implicit alpha 255; parsing always fails for strings without the hash, for
4 or 10 digits after the hash, and whenever a character other than an
optional leading plus sign is not a hex digit.  Amendment: the original
claim said any string containing a non-hex character fails, but the
underlying integer parser `u32::from_str_radix` also accepts a single
leading plus sign, so e.g. `#+00000FF` parses successfully. -/
theorem color_from_str_claim :
    (∀ c1 c2 c3 c4 c5 c6 c7 c8 : Char,
      (∀ c ∈ [c1, c2, c3, c4, c5, c6, c7, c8], (hexDigit? c).isSome) →
      Color.from_str ⟨'#' :: [c1, c2, c3, c4, c5, c6, c7, c8]⟩ =
          .ok (Color.from_argb (hexPair c1 c2) (hexPair c3 c4) (hexPair c5 c6)
            (hexPair c7 c8)) ∧
        (Color.from_argb (hexPair c1 c2) (hexPair c3 c4) (hexPair c5 c6)
          (hexPair c7 c8)).alpha = hexPair c1 c2 ∧
        (Color.from_argb (hexPair c1 c2) (hexPair c3 c4) (hexPair c5 c6)
          (hexPair c7 c8)).red = hexPair c3 c4 ∧
        (Color.from_argb (hexPair c1 c2) (hexPair c3 c4) (hexPair c5 c6)
          (hexPair c7 c8)).green = hexPair c5 c6 ∧
        (Color.from_argb (hexPair c1 c2) (hexPair c3 c4) (hexPair c5 c6)
          (hexPair c7 c8)).blue = hexPair c7 c8) ∧
    (∀ c1 c2 c3 c4 c5 c6 : Char,
      (∀ c ∈ [c1, c2, c3, c4, c5, c6], (hexDigit? c).isSome) →
      Color.from_str ⟨'#' :: [c1, c2, c3, c4, c5, c6]⟩ =
          .ok (Color.from_argb 255 (hexPair c1 c2) (hexPair c3 c4) (hexPair c5 c6)) ∧
        (Color.from_argb 255 (hexPair c1 c2) (hexPair c3 c4) (hexPair c5 c6)).alpha = 255 ∧
        (Color.from_argb 255 (hexPair c1 c2) (hexPair c3 c4) (hexPair c5 c6)).red = hexPair c1 c2 ∧
        (Color.from_argb 255 (hexPair c1 c2) (hexPair c3 c4) (hexPair c5 c6)).green = hexPair c3 c4 ∧
        (Color.from_argb 255 (hexPair c1 c2) (hexPair c3 c4) (hexPair c5 c6)).blue = hexPair c5 c6) ∧
    (∀ s : String, s.data.head? ≠ some '#' → (Color.from_str s).isOk = false) ∧
    (∀ cs : List Char, cs.length = 4 ∨ cs.length = 10 →
      (Color.from_str ⟨'#' :: cs⟩).isOk = false) ∧
    (∀ cs : List Char,
      (∃ c ∈ (if cs.head? = some '+' then cs.tail else cs), hexDigit? c = none) →
      (Color.from_str ⟨'#' :: cs⟩).isOk = false) := by
  refine ⟨?_, ?_, from_str_no_hash, from_str_bad_length, from_str_bad_digit⟩
  · intro c1 c2 c3 c4 c5 c6 c7 c8 h
    have h1 : (hexDigit? c1).isSome := h c1 (by simp)
    have h2 : (hexDigit? c2).isSome := h c2 (by simp)
    have h3 : (hexDigit? c3).isSome := h c3 (by simp)
    have h4 : (hexDigit? c4).isSome := h c4 (by simp)
    have h5 : (hexDigit? c5).isSome := h c5 (by simp)
    have h6 : (hexDigit? c6).isSome := h c6 (by simp)
    have h7 : (hexDigit? c7).isSome := h c7 (by simp)
    have h8 : (hexDigit? c8).isSome := h c8 (by simp)
    have hA := hexPair_lt h1 h2
    have hR := hexPair_lt h3 h4
    have hG := hexPair_lt h5 h6
    have hB := hexPair_lt h7 h8
    exact ⟨color_parse_hex8 c1 c2 c3 c4 c5 c6 c7 c8 h,
      Color.alpha_from_argb _ _ _ _ hA hR hG hB,
      Color.red_from_argb _ _ _ _ hR hG hB,
      Color.green_from_argb _ _ _ _ hR hG hB,
      Color.blue_from_argb _ _ _ _ hR hG hB⟩
  · intro c1 c2 c3 c4 c5 c6 h
    have h1 : (hexDigit? c1).isSome := h c1 (by simp)
    have h2 : (hexDigit? c2).isSome := h c2 (by simp)
    have h3 : (hexDigit? c3).isSome := h c3 (by simp)
    have h4 : (hexDigit? c4).isSome := h c4 (by simp)
    have h5 : (hexDigit? c5).isSome := h c5 (by simp)
    have h6 : (hexDigit? c6).isSome := h c6 (by simp)
    have hR := hexPair_lt h1 h2
    have hG := hexPair_lt h3 h4
    have hB := hexPair_lt h5 h6
    exact ⟨color_parse_hex6 c1 c2 c3 c4 c5 c6 h,
      Color.alpha_from_argb _ _ _ _ (by norm_num) hR hG hB,
      Color.red_from_argb _ _ _ _ hR hG hB,
      Color.green_from_argb _ _ _ _ hR hG hB,
      Color.blue_from_argb _ _ _ _ hR hG hB⟩

/-- Witness for `color_from_str_claim` at concrete inputs. -/
theorem color_from_str_claim_witness :
    Color.from_str ⟨'#' :: ['1', '2', 'A', 'B', '3', '4', 'C', 'D']⟩ =
        .ok (Color.from_argb (hexPair '1' '2') (hexPair 'A' 'B') (hexPair '3' '4')
          (hexPair 'C' 'D')) ∧
    Color.from_str ⟨'#' :: ['F', 'F', 'C', 'C', '0', '0']⟩ =
        .ok (Color.from_argb 255 (hexPair 'F' 'F') (hexPair 'C' 'C') (hexPair '0' '0')) ∧
    (Color.from_str "00FFFF").isOk = false ∧
    (Color.from_str ⟨'#' :: ['F', 'F', 'F', 'F']⟩).isOk = false ∧
    (Color.from_str ⟨'#' :: ['F', 'Q', '0', '0', 'F', 'F']⟩).isOk = false :=
  ⟨(color_from_str_claim.1 '1' '2' 'A' 'B' '3' '4' 'C' 'D' (by decide)).1,
    (color_from_str_claim.2.1 'F' 'F' 'C' 'C' '0' '0' (by decide)).1,
    color_from_str_claim.2.2.1 "00FFFF" (by decide),
    color_from_str_claim.2.2.2.1 ['F', 'F', 'F', 'F'] (by decide),
    color_from_str_claim.2.2.2.2 ['F', 'Q', '0', '0', 'F', 'F'] (by decide)⟩

/-- C9 counterexample: the string `#+00000FF` contains the non-hex character
`+` after the hash, yet `Color::from_str` parses it successfully (with value
255, i.e. opaque-zero alpha-red-green and blue 255), because
`u32::from_str_radix` accepts a leading plus sign.  This refutes the original
claim that strings containing non-hex characters always fail. -/
theorem color_from_str_plus_counterexample :
    hexDigit? '+' = none ∧
    Color.from_str "#+00000FF" = .ok (Color.from_argb 0 0 0 255) := by
  constructor
  · decide
  · decide

/-- Model of a `roxmltree` element node as consumed by the library: tag
name, attributes (unique names, in document order), child element nodes, and
the text content (`Node::text` returns the first text child, if any). -/
inductive XmlNode where
  | mk (tag : String) (attrs : List (String × String)) (children : List XmlNode)
      (text : Option String)

def XmlNode.tag : XmlNode → String
  | .mk t _ _ _ => t

def XmlNode.attrs : XmlNode → List (String × String)
  | .mk _ a _ _ => a

def XmlNode.children : XmlNode → List XmlNode
  | .mk _ _ c _ => c

def XmlNode.text : XmlNode → Option String
  | .mk _ _ _ t => t

/-- `roxmltree::Node::attribute`. -/
def XmlNode.attribute (n : XmlNode) (name : String) : Option String :=
  n.attrs.lookup name

/-- Value of one decimal digit. -/
def decDigit? (c : Char) : Option Nat :=
  if 48 ≤ c.toNat ∧ c.toNat ≤ 57 then some (c.toNat - 48) else none

/-- Digit loop of Rust unsigned decimal parsing with overflow bound. -/
def parseDecDigits (bound : Nat) : Nat → List Char → Option Nat
  | acc, [] => some acc
  | acc, c :: cs =>
    match decDigit? c with
    | none => none
    | some d =>
      if acc * 10 + d ≤ bound then parseDecDigits bound (acc * 10 + d) cs else none

/-- Rust `str::parse` for an unsigned integer type with maximum `bound`:
an optional leading plus sign, then one or more decimal digits; a minus
sign, an empty digit sequence and overflow are errors. -/
def parseUnsigned (bound : Nat) (s : String) : Option Nat :=
  let cs := s.data
  let ds := if cs.head? = some '+' then cs.tail else cs
  if ds.isEmpty then none else parseDecDigits bound 0 ds

/-- `str::parse::<usize>` (64-bit platform). -/
def parse_usize (s : String) : Option Nat := parseUnsigned (2 ^ 64 - 1) s

/-- `str::parse::<u32>`. -/
def parse_u32 (s : String) : Option Nat := parseUnsigned (2 ^ 32 - 1) s

/-- `str::parse::<NonZeroU32>` as used by `GID::from_str`: a `u32` parse
whose result must be nonzero. -/
def parse_gid (s : String) : Option GID :=
  match parse_u32 s with
  | none => none
  | some 0 => none
  | some v => some (v : GID)

/-- All decimal digits of a list, as a `Nat`, or `none`. -/
def decVal? : Nat → List Char → Option Nat
  | acc, [] => some acc
  | acc, c :: cs =>
    match decDigit? c with
    | none => none
    | some d => decVal? (acc * 10 + d) cs

/-- Rust `str::parse` for a signed integer type with range `[lo, hi]`:
optional sign, one or more decimal digits, range check.  (Rust checks
overflow at every step; checking the final value rejects exactly the same
strings.) -/
def parseSigned (lo hi : Int) (s : String) : Option Int :=
  let cs := s.data
  let (neg, ds) :=
    match cs with
    | '-' :: r => (true, r)
    | '+' :: r => (false, r)
    | r => (false, r)
  if ds.isEmpty then none
  else
    match decVal? 0 ds with
    | none => none
    | some n =>
      let v : Int := if neg then -(n : Int) else (n : Int)
      if lo ≤ v ∧ v ≤ hi then some v else none

/-- `str::parse::<i32>`. -/
def parse_i32 (s : String) : Option Int := parseSigned (-(2 ^ 31)) (2 ^ 31 - 1) s

/-- `str::parse::<i64>`. -/
def parse_i64 (s : String) : Option Int := parseSigned (-(2 ^ 63)) (2 ^ 63 - 1) s

/-- `str::parse::<bool>` accepts exactly `true` and `false`. -/
def parse_bool (s : String) : Option Bool :=
  if s = "true" then some true else if s = "false" then some false else none

/-- `f32` values are modelled as the raw attribute text: Rust float parsing
is external to the library and no claim depends on float values, so the
parse is modelled as total and value-preserving on the text. -/
def F32 := String

instance : DecidableEq F32 := fun a b => String.decEq a b

instance : Inhabited F32 := ⟨("0" : String)⟩

/-- Model of `str::parse::<f32>` (see `F32`). -/
def parse_f32 (s : String) : Option F32 := some s

/-- `f64` values, modelled like `F32`. -/
def F64 := String

instance : DecidableEq F64 := fun a b => String.decEq a b

/-- Model of `str::parse::<f64>` (see `F64`). -/
def parse_f64 (s : String) : Option F64 := some s

/-- `fn attribute<T>(node, name)` from `src/lib.rs`: a required attribute;
missing gives a `StructureError` naming the tag, a failed parse gives a
`ParseError`. -/
def attr_req {α : Type} (parse : String → Option α) (node : XmlNode) (name : String) :
    Except Err α :=
  match node.attribute name with
  | none => .error (.structureError node.tag ("Required attribute " ++ name ++ " missing"))
  | some text =>
    match parse text with
    | some v => .ok v
    | none => .error (.parseError ("invalid value " ++ text ++ " for attribute " ++ name))

/-- `fn attribute_or<T>(node, name, alternative)` from `src/lib.rs`. -/
def attr_or {α : Type} (parse : String → Option α) (node : XmlNode) (name : String)
    (alt : α) : Except Err α :=
  match node.attribute name with
  | none => .ok alt
  | some text =>
    match parse text with
    | some v => .ok v
    | none => .error (.parseError ("invalid value " ++ text ++ " for attribute " ++ name))

/-- `ivec2` from `src/math.rs` (pairs of `i32`). -/
structure Ivec2 where
  x : Int
  y : Int
  deriving Repr, DecidableEq

def Ivec2.new (x y : Int) : Ivec2 := ⟨x, y⟩

/-- Componentwise addition (`impl_op_ex!{+ ...}`). -/
def Ivec2.add (a b : Ivec2) : Ivec2 := ⟨a.x + b.x, a.y + b.y⟩

/-- Componentwise multiplication (`impl_op_ex!{* ...}`). -/
def Ivec2.mul (a b : Ivec2) : Ivec2 := ⟨a.x * b.x, a.y * b.y⟩

/-- `Rect` from `src/math.rs`. -/
structure Rect where
  upper_left : Ivec2
  size : Ivec2
  deriving Repr, DecidableEq

def Rect.new (upper_left size : Ivec2) : Rect := ⟨upper_left, size⟩

/-- `fvec2` from `src/math.rs` (pairs of `f32`, see `F32`). -/
structure Fvec2 where
  x : F32
  y : F32
  deriving DecidableEq

def Fvec2.new (x y : F32) : Fvec2 := ⟨x, y⟩

/-- `ivec2::from_tmx_or_default` - both components via `attribute_or_default`
(`i32::default()` is `0`). -/
def Ivec2.from_tmx_or_default (tmx : XmlNode) (x_attr y_attr : String) :
    Except Err Ivec2 := do
  let x ← attr_or parse_i32 tmx x_attr 0
  let y ← attr_or parse_i32 tmx y_attr 0
  .ok (Ivec2.new x y)

/-- `fvec2::from_tmx_or_default` (`f32::default()` is `0.0`, modelled as the
text `0`). -/
def Fvec2.from_tmx_or_default (tmx : XmlNode) (x_attr y_attr : String) :
    Except Err Fvec2 := do
  let x ← attr_or parse_f32 tmx x_attr (default : F32)
  let y ← attr_or parse_f32 tmx y_attr (default : F32)
  .ok (Fvec2.new x y)

/-- `ObjectReference(i64)` from `src/property.rs`. -/
structure ObjectReference where
  val : Int
  deriving Repr, DecidableEq

/-- `PropertyValue` from `src/property.rs`. -/
inductive PropertyValue where
  | string : String → PropertyValue
  | int : Int → PropertyValue
  | float : F64 → PropertyValue
  | bool : Bool → PropertyValue
  | color : Color → PropertyValue
  | file : String → PropertyValue
  | object : ObjectReference → PropertyValue
  deriving DecidableEq

/-- `parse_string_value` from `src/property.rs`: the `value` attribute if
present, else the node text, else the empty string. -/
def parse_string_value (tmx : XmlNode) : String :=
  match tmx.attribute "value" with
  | some text => text
  | none => tmx.text.getD ""

/-- `PropertyValue::from_xml`: the `type` attribute (default `string`)
selects the variant; the `parse!` macro reads the `value` attribute if
present (propagating parse errors) and falls back to the type's default. -/
def PropertyValue.from_xml (tmx : XmlNode) : Except Err PropertyValue :=
  match (tmx.attribute "type").getD "string" with
  | "string" => .ok (.string (parse_string_value tmx))
  | "int" =>
    match tmx.attribute "value" with
    | none => .ok (.int 0)
    | some t =>
      match parse_i64 t with
      | some v => .ok (.int v)
      | none => .error (.parseError ("invalid int " ++ t))
  | "float" =>
    match tmx.attribute "value" with
    | none => .ok (.float (("0" : String) : F64))
    | some t =>
      match parse_f64 t with
      | some v => .ok (.float v)
      | none => .error (.parseError ("invalid float " ++ t))
  | "bool" =>
    match tmx.attribute "value" with
    | none => .ok (.bool false)
    | some t =>
      match parse_bool t with
      | some v => .ok (.bool v)
      | none => .error (.parseError ("invalid bool " ++ t))
  | "color" =>
    match tmx.attribute "value" with
    | none => .ok (.color Color.default)
    | some t =>
      match Color.from_str t with
      | .ok v => .ok (.color v)
      | .error e => .error e
  | "file" => .ok (.file ((tmx.attribute "value").getD ""))
  | "object" =>
    match tmx.attribute "value" with
    | none => .ok (.object ⟨0⟩)
    | some t =>
      match parse_i64 t with
      | some v => .ok (.object ⟨v⟩)
      | none => .error (.parseError ("invalid object id " ++ t))
  | other =>
    .error (.structureError tmx.tag
      ("Unknown property type " ++ other ++ " for property " ++
        ((tmx.attribute "name").getD "")))

/-- `Property` from `src/property.rs`. -/
structure Property where
  name : String
  value : PropertyValue
  deriving DecidableEq

/-- `Property::as_str`. -/
def Property.as_str : Property → Except Err String
  | ⟨_, .string text⟩ => .ok text
  | _ => .error .propertyTypeError

/-- `Property::as_i64`. -/
def Property.as_i64 : Property → Except Err Int
  | ⟨_, .int val⟩ => .ok val
  | _ => .error .propertyTypeError

/-- `Property::as_f64`. -/
def Property.as_f64 : Property → Except Err F64
  | ⟨_, .float val⟩ => .ok val
  | _ => .error .propertyTypeError

/-- `Property::as_bool`. -/
def Property.as_bool : Property → Except Err Bool
  | ⟨_, .bool val⟩ => .ok val
  | _ => .error .propertyTypeError

/-- `Property::as_color`. -/
def Property.as_color : Property → Except Err Color
  | ⟨_, .color val⟩ => .ok val
  | _ => .error .propertyTypeError

/-- `Property::as_file`. -/
def Property.as_file : Property → Except Err String
  | ⟨_, .file val⟩ => .ok val
  | _ => .error .propertyTypeError

/-- `Property::as_object_ref`. -/
def Property.as_object_ref : Property → Except Err ObjectReference
  | ⟨_, .object val⟩ => .ok val
  | _ => .error .propertyTypeError

/-- `PropertyContainer` from `src/property.rs`; the `HashMap<String,
Property>` is modelled as an association list with unique keys, which is
faithful for the operations the library uses (`insert`, `Index`, `values`). -/
structure PropertyContainer where
  properties : List (String × Property)
  deriving DecidableEq

/-- `PropertyContainer::new`. -/
def PropertyContainer.new : PropertyContainer := ⟨[]⟩

/-- `HashMap::insert`: replace the entry with the same key, else add one. -/
def assocInsert (k : String) (v : Property) : List (String × Property) →
    List (String × Property)
  | [] => [(k, v)]
  | (k', v') :: rest =>
    if k' = k then (k, v) :: rest else (k', v') :: assocInsert k v rest

def PropertyContainer.insert (c : PropertyContainer) (k : String) (v : Property) :
    PropertyContainer := ⟨assocInsert k v c.properties⟩

/-- Loop body of `PropertyContainer::update_from_xml` over the `property`
children: a missing `name` attribute is a structure error, otherwise the
parsed property is inserted (overwriting an entry with the same name). -/
def propsLoop : List XmlNode → PropertyContainer → Except Err PropertyContainer
  | [], acc => .ok acc
  | p :: rest, acc =>
    match p.attribute "name" with
    | none => .error (.structureError p.tag "Property is missing a name!")
    | some name => do
      let v ← PropertyValue.from_xml p
      propsLoop rest (acc.insert name ⟨name, v⟩)

/-- `PropertyContainer::update_from_xml`: find the `properties` child and
fold its `property` children into the container. -/
def PropertyContainer.update_from_xml (c : PropertyContainer) (tmx : XmlNode) :
    Except Err PropertyContainer :=
  match tmx.children.find? (fun ch => ch.tag == "properties") with
  | none => .ok c
  | some properties =>
    propsLoop (properties.children.filter (fun ch => ch.tag == "property")) c

/-- `PropertyContainer::from_xml`. -/
def PropertyContainer.from_xml (tmx : XmlNode) : Except Err PropertyContainer :=
  PropertyContainer.new.update_from_xml tmx

/-- `Index<&str> for PropertyContainer`: `&self.properties[index].value`.
`HashMap`'s `Index` panics when the key is absent. -/
def PropertyContainer.index (c : PropertyContainer) (k : String) : Res Err PropertyValue :=
  match c.properties.lookup k with
  | some p => .ok p.value
  | none => .panic "key not found"

/-- C8: each typed accessor of `Property` returns the stored value when the
stored variant matches the accessor, and returns the typed mismatch error
`PropertyTypeError` - never a panic and never a coercion - when the stored
variant differs. -/
theorem property_accessors_claim :
    (∀ (n s : String), (Property.mk n (.string s)).as_str = .ok s) ∧
    (∀ p : Property, (∀ s, p.value ≠ .string s) →
      p.as_str = .error .propertyTypeError) ∧
    (∀ (n : String) (v : Int), (Property.mk n (.int v)).as_i64 = .ok v) ∧
    (∀ p : Property, (∀ v, p.value ≠ .int v) →
      p.as_i64 = .error .propertyTypeError) ∧
    (∀ (n : String) (v : F64), (Property.mk n (.float v)).as_f64 = .ok v) ∧
    (∀ p : Property, (∀ v, p.value ≠ .float v) →
      p.as_f64 = .error .propertyTypeError) ∧
    (∀ (n : String) (v : Bool), (Property.mk n (.bool v)).as_bool = .ok v) ∧
    (∀ p : Property, (∀ v, p.value ≠ .bool v) →
      p.as_bool = .error .propertyTypeError) ∧
    (∀ (n : String) (v : Color), (Property.mk n (.color v)).as_color = .ok v) ∧
    (∀ p : Property, (∀ v, p.value ≠ .color v) →
      p.as_color = .error .propertyTypeError) ∧
    (∀ (n v : String), (Property.mk n (.file v)).as_file = .ok v) ∧
    (∀ p : Property, (∀ v, p.value ≠ .file v) →
      p.as_file = .error .propertyTypeError) ∧
    (∀ (n : String) (v : ObjectReference),
      (Property.mk n (.object v)).as_object_ref = .ok v) ∧
    (∀ p : Property, (∀ v, p.value ≠ .object v) →
      p.as_object_ref = .error .propertyTypeError) := by
  refine ⟨fun n s => rfl, ?_, fun n v => rfl, ?_, fun n v => rfl, ?_, fun n v => rfl,
    ?_, fun n v => rfl, ?_, fun n v => rfl, ?_, fun n v => rfl, ?_⟩ <;>
  · intro p h
    obtain ⟨n, v⟩ := p
    cases v <;> first | rfl | exact absurd rfl (h _)

/-- Witness for `property_accessors_claim` at concrete properties. -/
theorem property_accessors_claim_witness :
    (Property.mk "p" (.string "hello")).as_str = .ok "hello" ∧
    (Property.mk "p" (.int 3)).as_str = .error .propertyTypeError ∧
    (Property.mk "p" (.int 3)).as_i64 = .ok 3 ∧
    (Property.mk "p" (.string "hello")).as_i64 = .error .propertyTypeError ∧
    (Property.mk "p" (.float (("1.5" : String) : F64))).as_f64 = .ok (("1.5" : String) : F64) ∧
    (Property.mk "p" (.int 3)).as_f64 = .error .propertyTypeError ∧
    (Property.mk "p" (.bool true)).as_bool = .ok true ∧
    (Property.mk "p" (.int 3)).as_bool = .error .propertyTypeError ∧
    (Property.mk "p" (.color ⟨255⟩)).as_color = .ok ⟨255⟩ ∧
    (Property.mk "p" (.int 3)).as_color = .error .propertyTypeError ∧
    (Property.mk "p" (.file "a.png")).as_file = .ok "a.png" ∧
    (Property.mk "p" (.int 3)).as_file = .error .propertyTypeError ∧
    (Property.mk "p" (.object ⟨7⟩)).as_object_ref = .ok ⟨7⟩ ∧
    (Property.mk "p" (.int 3)).as_object_ref = .error .propertyTypeError :=
  ⟨property_accessors_claim.1 "p" "hello",
    property_accessors_claim.2.1 _ (fun s h => by cases h),
    property_accessors_claim.2.2.1 "p" 3,
    property_accessors_claim.2.2.2.1 _ (fun v h => by cases h),
    property_accessors_claim.2.2.2.2.1 "p" _,
    property_accessors_claim.2.2.2.2.2.1 _ (fun v h => by cases h),
    property_accessors_claim.2.2.2.2.2.2.1 "p" true,
    property_accessors_claim.2.2.2.2.2.2.2.1 _ (fun v h => by cases h),
    property_accessors_claim.2.2.2.2.2.2.2.2.1 "p" ⟨255⟩,
    property_accessors_claim.2.2.2.2.2.2.2.2.2.1 _ (fun v h => by cases h),
    property_accessors_claim.2.2.2.2.2.2.2.2.2.2.1 "p" "a.png",
    property_accessors_claim.2.2.2.2.2.2.2.2.2.2.2.1 _ (fun v h => by cases h),
    property_accessors_claim.2.2.2.2.2.2.2.2.2.2.2.2.1 "p" ⟨7⟩,
    property_accessors_claim.2.2.2.2.2.2.2.2.2.2.2.2.2 _ (fun v h => by cases h)⟩

/-- C10: the public `Index` operation on a property container returns the
stored `PropertyValue` when a property with that name exists, and panics
(rather than returning an error value or an `Option`) when none exists. -/
theorem property_index_claim :
    (∀ (c : PropertyContainer) (k : String) (p : Property),
      c.properties.lookup k = some p → c.index k = .ok p.value) ∧
    (∀ (c : PropertyContainer) (k : String),
      c.properties.lookup k = none → c.index k = .panic "key not found") := by
  constructor
  · intro c k p h
    simp [PropertyContainer.index, h]
  · intro c k h
    simp [PropertyContainer.index, h]

/-- Witness for `property_index_claim` on a concrete container. -/
theorem property_index_claim_witness :
    (PropertyContainer.new.insert "health" ⟨"health", .int 10⟩).index "health" =
        .ok (.int 10) ∧
    (PropertyContainer.new.insert "health" ⟨"health", .int 10⟩).index "mana" =
        .panic "key not found" :=
  ⟨property_index_claim.1 _ "health" ⟨"health", .int 10⟩ (by decide),
    property_index_claim.2 _ "mana" (by decide)⟩

/-- `ResourceManager` from `src/resource_manager.rs`, restricted to the
state its image loading touches: the base path, the image cache
(`HashMap<String, Rc<dyn Any>>`, modelled as an association list keyed by
the resolved path), and the boxed `ImageLoader`'s mutable state `σ`
(`load` takes `&mut self`).  The file provider and the template cache are
independent fields that `load_image` never reads or writes.  `loadLog` is a
ghost field recording the sequence of paths the `ImageLoader` has been
invoked with; it changes exactly when `self.image_loader.load(..)` is
called.  Image handles (`Rc<dyn Any>`) are the abstract type `H`: a cache
hit returns `Rc::clone` of the stored handle, so two handles are
reference-equal in Rust exactly when they are the same `H` value here. -/
structure ResourceManager (σ H : Type) where
  base_path : String
  loaderState : σ
  image_cache : List (String × H)
  loadLog : List String

/-- `format!("{}/{}", base_path, path)` - the resolved cache key. -/
def ResourceManager.resolve {σ H : Type} (rm : ResourceManager σ H) (path : String) :
    String :=
  rm.base_path ++ "/" ++ path

/-- `ResourceManager::load_image`: resolve the path, look it up in the image
cache; on a hit return a clone of the cached handle, on a miss invoke the
loader, propagate its error (`?`, without caching) or cache and return the
loaded handle. -/
def ResourceManager.load_image {σ H : Type} (loader : σ → String → Except Err H × σ)
    (rm : ResourceManager σ H) (path : String) :
    Except Err H × ResourceManager σ H :=
  let resolved := rm.resolve path
  match rm.image_cache.lookup resolved with
  | some h => (.ok h, rm)
  | none =>
    match loader rm.loaderState resolved with
    | (.ok data, s') =>
      (.ok data,
        { rm with
          loaderState := s'
          image_cache := (resolved, data) :: rm.image_cache
          loadLog := rm.loadLog ++ [resolved] })
    | (.error e, s') =>
      (.error e, { rm with loaderState := s', loadLog := rm.loadLog ++ [resolved] })

/-- A sequence of `load_image` calls, returning all results and the final
manager state. -/
def ResourceManager.runCalls {σ H : Type} (loader : σ → String → Except Err H × σ) :
    ResourceManager σ H → List String → List (Except Err H) × ResourceManager σ H
  | rm, [] => ([], rm)
  | rm, p :: ps =>
    let step := rm.load_image loader p
    let rest := ResourceManager.runCalls loader step.2 ps
    (step.1 :: rest.1, rest.2)

theorem load_image_base_path {σ H : Type} (loader : σ → String → Except Err H × σ)
    (rm : ResourceManager σ H) (p : String) :
    (rm.load_image loader p).2.base_path = rm.base_path := by
  unfold ResourceManager.load_image
  cases hl : List.lookup (rm.resolve p) rm.image_cache with
  | some h => simp [hl]
  | none =>
    cases hload : loader rm.loaderState (rm.resolve p) with
    | mk res s' => cases res <;> simp [hl, hload]

theorem load_image_cache_hit {σ H : Type} (loader : σ → String → Except Err H × σ)
    (rm : ResourceManager σ H) (p : String) (h : H)
    (hhit : List.lookup (rm.resolve p) rm.image_cache = some h) :
    rm.load_image loader p = (.ok h, rm) := by
  unfold ResourceManager.load_image
  simp [hhit]

theorem load_image_cache_preserved {σ H : Type} (loader : σ → String → Except Err H × σ)
    (rm : ResourceManager σ H) (p r : String) (h : H)
    (hr : List.lookup r rm.image_cache = some h) :
    List.lookup r (rm.load_image loader p).2.image_cache = some h := by
  unfold ResourceManager.load_image
  cases hl : List.lookup (rm.resolve p) rm.image_cache with
  | some h' => simp only [hl]; exact hr
  | none =>
    cases hload : loader rm.loaderState (rm.resolve p) with
    | mk res s' =>
      cases res with
      | ok d =>
        have hne : rm.resolve p ≠ r := by
          intro hEq
          rw [hEq, hr] at hl
          cases hl
        have hne' : r ≠ rm.resolve p := fun hEq => hne hEq.symm
        have hbeq : (r == rm.resolve p) = false := by simp [hne']
        simp only [hl, hload]
        simp [List.lookup, hbeq]
        exact hr
      | error e => simp only [hl, hload]; exact hr

theorem load_image_log_other {σ H : Type} (loader : σ → String → Except Err H × σ)
    (rm : ResourceManager σ H) (p r : String)
    (hne : rm.resolve p ≠ r) :
    ((rm.load_image loader p).2.loadLog.count r) = rm.loadLog.count r := by
  unfold ResourceManager.load_image
  have hbeq : (rm.resolve p == r) = false := by simp [hne]
  cases hl : List.lookup (rm.resolve p) rm.image_cache with
  | some h' => simp [hl]
  | none =>
    cases hload : loader rm.loaderState (rm.resolve p) with
    | mk res s' =>
      cases res <;> simp [hl, hload, List.count_append, List.count_singleton, hbeq]

theorem runCalls_memoized {σ H : Type} (loader : σ → String → Except Err H × σ)
    (calls : List String) (rm : ResourceManager σ H) (r : String) (h : H)
    (hr : List.lookup r rm.image_cache = some h) :
    List.lookup r (ResourceManager.runCalls loader rm calls).2.image_cache = some h ∧
    (ResourceManager.runCalls loader rm calls).2.loadLog.count r = rm.loadLog.count r ∧
    ∀ x ∈ calls.zip (ResourceManager.runCalls loader rm calls).1,
      rm.base_path ++ "/" ++ x.1 = r → x.2 = .ok h := by
  induction calls generalizing rm with
  | nil => exact ⟨hr, rfl, by simp⟩
  | cons p ps ih =>
    by_cases hres : rm.resolve p = r
    · have hstep : rm.load_image loader p = (.ok h, rm) :=
        load_image_cache_hit loader rm p h (by rw [hres]; exact hr)
      have hrun : ResourceManager.runCalls loader rm (p :: ps) =
          ((.ok h) :: (ResourceManager.runCalls loader rm ps).1,
            (ResourceManager.runCalls loader rm ps).2) := by
        simp [ResourceManager.runCalls, hstep]
      obtain ⟨ih1, ih2, ih3⟩ := ih rm hr
      refine ⟨by rw [hrun]; exact ih1, by rw [hrun]; exact ih2, ?_⟩
      rw [hrun]
      intro x hx hxr
      simp only [List.zip_cons_cons, List.mem_cons] at hx
      rcases hx with rfl | hx
      · rfl
      · exact ih3 x hx hxr
    · have hcache := load_image_cache_preserved loader rm p r h hr
      have hlog := load_image_log_other loader rm p r hres
      have hbase := load_image_base_path loader rm p
      obtain ⟨ih1, ih2, ih3⟩ := ih (rm.load_image loader p).2 hcache
      have hrun : ResourceManager.runCalls loader rm (p :: ps) =
          ((rm.load_image loader p).1 ::
              (ResourceManager.runCalls loader (rm.load_image loader p).2 ps).1,
            (ResourceManager.runCalls loader (rm.load_image loader p).2 ps).2) := by
        simp [ResourceManager.runCalls]
      refine ⟨by rw [hrun]; exact ih1, by rw [hrun]; rw [ih2]; exact hlog, ?_⟩
      rw [hrun]
      intro x hx hxr
      simp only [List.zip_cons_cons, List.mem_cons] at hx
      rcases hx with rfl | hx
      · exact absurd hxr hres
      · exact ih3 x hx (by rw [hbase]; exact hxr)

/-- C7 (amended): the image cache memoizes successful loads.  A call whose
resolved path is cached returns the cached handle (the same shared object)
and leaves the manager - including the invocation log - unchanged; a call
for an uncached path invokes the loader exactly once, caching the handle on
success and caching nothing on failure; once a path is cached, an arbitrary
sequence of further calls never invokes the loader for it again and every
call for that path returns the cached handle.  Amendment: the original
claim's blanket `at most once per path over the manager's lifetime` does not
hold, because a failed load is not cached and a later call for the same path
invokes the loader again (see the counterexample); at-most-once holds from
the first successful load onward. -/
theorem load_image_memoization_claim :
    (∀ (σ H : Type) (loader : σ → String → Except Err H × σ)
      (rm : ResourceManager σ H) (p : String) (h : H),
      List.lookup (rm.resolve p) rm.image_cache = some h →
      rm.load_image loader p = (.ok h, rm)) ∧
    (∀ (σ H : Type) (loader : σ → String → Except Err H × σ)
      (rm : ResourceManager σ H) (p : String) (d : H) (s' : σ),
      List.lookup (rm.resolve p) rm.image_cache = none →
      loader rm.loaderState (rm.resolve p) = (.ok d, s') →
      rm.load_image loader p =
        (.ok d,
          { rm with
            loaderState := s'
            image_cache := (rm.resolve p, d) :: rm.image_cache
            loadLog := rm.loadLog ++ [rm.resolve p] })) ∧
    (∀ (σ H : Type) (loader : σ → String → Except Err H × σ)
      (rm : ResourceManager σ H) (p : String) (e : Err) (s' : σ),
      List.lookup (rm.resolve p) rm.image_cache = none →
      loader rm.loaderState (rm.resolve p) = (.error e, s') →
      rm.load_image loader p =
        (.error e, { rm with loaderState := s', loadLog := rm.loadLog ++ [rm.resolve p] })) ∧
    (∀ (σ H : Type) (loader : σ → String → Except Err H × σ)
      (calls : List String) (rm : ResourceManager σ H) (r : String) (h : H),
      List.lookup r rm.image_cache = some h →
      (ResourceManager.runCalls loader rm calls).2.loadLog.count r =
          rm.loadLog.count r ∧
      ∀ x ∈ calls.zip (ResourceManager.runCalls loader rm calls).1,
        rm.base_path ++ "/" ++ x.1 = r → x.2 = .ok h) := by
  refine ⟨fun σ H loader rm p h hhit => load_image_cache_hit loader rm p h hhit,
    ?_, ?_, ?_⟩
  · intro σ H loader rm p d s' hmiss hload
    unfold ResourceManager.load_image
    simp [hmiss, hload]
  · intro σ H loader rm p e s' hmiss hload
    unfold ResourceManager.load_image
    simp [hmiss, hload]
  · intro σ H loader calls rm r h hr
    obtain ⟨_, h2, h3⟩ := runCalls_memoized loader calls rm r h hr
    exact ⟨h2, h3⟩

/-- A loader whose first invocation fails and whose later invocations
succeed with the path itself as the handle (the loader state counts
invocations). -/
def retryLoader : Nat → String → Except Err String × Nat :=
  fun n p => if n = 0 then (.error (.io "boom"), n + 1) else (.ok p, n + 1)

/-- C7 counterexample: with a loader whose first attempt fails, two
`load_image` calls for the same path invoke the `ImageLoader` twice (the
invocation log holds the resolved path twice), refuting the claim that the
loader is invoked at most once per resolved path over the manager's
lifetime.  Failed loads are not cached, so the second call retries. -/
theorem load_image_retry_counterexample :
    (ResourceManager.runCalls retryLoader ⟨".", 0, [], []⟩ ["img.png", "img.png"]).2.loadLog =
      ["./img.png", "./img.png"] ∧
    (ResourceManager.runCalls retryLoader ⟨".", 0, [], []⟩ ["img.png", "img.png"]).1 =
      [.error (.io "boom"), .ok "./img.png"] := by
  constructor
  · rfl
  · rfl

/-- Witness for `load_image_memoization_claim` at concrete inputs. -/
theorem load_image_memoization_claim_witness :
    (ResourceManager.load_image (fun (n : Nat) (p : String) => (.ok p, n + 1))
        ⟨".", 0, [("./a.png", "h1")], []⟩ "a.png" =
      (.ok "h1", ⟨".", 0, [("./a.png", "h1")], []⟩)) ∧
    (ResourceManager.load_image (fun (n : Nat) (p : String) => (.ok p, n + 1))
        ⟨".", 0, [], []⟩ "a.png" =
      (.ok "./a.png", ⟨".", 1, [("./a.png", "./a.png")], ["./a.png"]⟩)) ∧
    (ResourceManager.load_image
        (fun (n : Nat) (_p : String) => ((.error (.io "x") : Except Err String), n + 1))
        ⟨".", 0, [], []⟩ "a.png" =
      (.error (.io "x"), ⟨".", 1, [], ["./a.png"]⟩)) ∧
    ((ResourceManager.runCalls (fun (n : Nat) (p : String) => (.ok p, n + 1))
        ⟨".", 0, [("./a.png", "h1")], []⟩ ["a.png", "a.png"]).2.loadLog.count "./a.png" = 0) := by
  refine ⟨load_image_memoization_claim.1 Nat String _ _ "a.png" "h1" (by decide),
    load_image_memoization_claim.2.1 Nat String _ _ "a.png" "./a.png" 1 (by decide) (by decide),
    load_image_memoization_claim.2.2.1 Nat String _ _ "a.png" (.io "x") 1 (by decide) (by decide),
    ?_⟩
  have := (load_image_memoization_claim.2.2.2 Nat String
    (fun (n : Nat) (p : String) => (.ok p, n + 1)) ["a.png", "a.png"]
    ⟨".", 0, [("./a.png", "h1")], []⟩ "./a.png" "h1" (by decide)).1
  simpa using this

/-- `Res.map`. -/
def Res.map {ε α β : Type} (f : α → β) : Res ε α → Res ε β
  | .ok a => .ok (f a)
  | .err e => .err e
  | .panic m => .panic m

/-- `Res.isPanic`. -/
def Res.isPanic {ε α : Type} : Res ε α → Bool
  | .panic _ => true
  | _ => false

/-- `Res.isErr`. -/
def Res.isErr {ε α : Type} : Res ε α → Bool
  | .err _ => true
  | _ => false

/-- `read_data_tag` from `src/lib.rs`.  The external codecs are parameters:
`b64` is `base64::decode` (bytes as naturals below 256), `zlib`/`gzip` are
the `libflate` decoders whose failures are `std::io` errors.  The function
asserts that the node is a `data` tag with an `encoding` attribute (panics
otherwise), panics on `csv` (`todo!`), decodes base64 from the trimmed node
text (failure is a `ParseError`), applies the optional compression
(decoder failures propagate as I/O errors via `?`), and reports any other
compression or encoding as a `StructureError` naming the tag. -/
def read_data_tag (b64 : String → Except String (List Nat))
    (zlib gzip : List Nat → Except String (List Nat)) (data_node : XmlNode) :
    Res Err (List Nat) :=
  if data_node.tag = "data" then
    match data_node.attribute "encoding" with
    | none => .panic "assertion failed: encoding attribute is missing"
    | some encoding =>
      if encoding = "csv" then .panic "not yet implemented: Implement csv parsing"
      else if encoding = "base64" then
        match b64 ((data_node.text.getD "").trim) with
        | .error e => .err (.parseError e)
        | .ok raw_bytes =>
          match data_node.attribute "compression" with
          | none => .ok raw_bytes
          | some compression =>
            if compression = "zlib" then
              match zlib raw_bytes with
              | .ok decoded => .ok decoded
              | .error e => .err (.io e)
            else if compression = "gzip" then
              match gzip raw_bytes with
              | .ok decoded => .ok decoded
              | .error e => .err (.io e)
            else
              .err (.structureError data_node.tag
                ("Unsupported data compression " ++ compression))
      else
        .err (.structureError data_node.tag ("Unsupported data encoding " ++ encoding))
  else .panic "assertion failed: tag is not data"

/-- `u32::from_le_bytes` of one 4-byte chunk. -/
def u32_from_le_bytes (b0 b1 b2 b3 : Nat) : Nat :=
  b0 + 256 * b1 + 65536 * b2 + 16777216 * b3

/-- The chunk loop of `TileLayer::parse_data`: `chunks_exact(4)` (the
non-full remainder is dropped), `u32::from_le_bytes`, and
`NonZeroU32::new(..)?` inside the closure, which maps a zero id to `None`
and any other id to `Some(GID(id))` with all bits - including the flip
bits - retained. -/
def gidsOfBytes : List Nat → List (Option GID)
  | b0 :: b1 :: b2 :: b3 :: rest =>
    (if u32_from_le_bytes b0 b1 b2 b3 = 0 then none
     else some (u32_from_le_bytes b0 b1 b2 b3 : GID)) :: gidsOfBytes rest
  | _ => []

/-- `TileLayer::parse_data`: asserts the node is a `data` tag, panics
(`todo!`) when there is no `encoding` attribute, otherwise runs
`read_data_tag`, asserts the byte count is a multiple of 4, and converts the
chunks to optional GIDs. -/
def TileLayer.parse_data (b64 : String → Except String (List Nat))
    (zlib gzip : List Nat → Except String (List Nat)) (data_node : XmlNode) :
    Res Err (List (Option GID)) :=
  if data_node.tag = "data" then
    match data_node.attribute "encoding" with
    | none => .panic "not yet implemented: Tag based tile data loading"
    | some _ =>
      match read_data_tag b64 zlib gzip data_node with
      | .err e => .err e
      | .panic m => .panic m
      | .ok raw_bytes =>
        if raw_bytes.length % 4 = 0 then .ok (gidsOfBytes raw_bytes)
        else .panic "assertion failed: byte count is not a multiple of 4"
  else .panic "assertion failed: tag is not data"

/-- `Renderorder` from `src/lib.rs`. -/
inductive Renderorder where
  | rightDown
  | rightUp
  | leftDown
  | leftUp
  deriving Repr, DecidableEq

/-- `Renderorder::from_str`. -/
def Renderorder.from_str (s : String) : Option Renderorder :=
  if s = "right-down" then some .rightDown
  else if s = "right-up" then some .rightUp
  else if s = "left-down" then some .leftDown
  else if s = "left-up" then some .leftUp
  else none

/-- `Renderorder::default()` is `RightDown`. -/
def Renderorder.default : Renderorder := .rightDown

/-- `TileLayer` from `src/lib.rs`. -/
structure TileLayer where
  id : Option Nat
  name : String
  size : Ivec2
  tintcolor : Color
  tiles : List (Option GID)
  properties : PropertyContainer
  deriving DecidableEq

/-- `ObjectKind` from `src/lib.rs`. -/
inductive ObjectKind where
  | rect
  | ellipse
  | point
  | polygon (points : List Fvec2)
  | polyline (points : List Fvec2)
  | text (content : String)
  deriving DecidableEq

/-- `Object` from `src/lib.rs`. -/
structure Object where
  id : Nat
  name : String
  type_ : String
  pos : Fvec2
  size : Fvec2
  rotation : F32
  tile_id : Option GID
  visible : Bool
  kind : ObjectKind
  properties : PropertyContainer
  deriving DecidableEq

/-- `ObjectLayer` from `src/lib.rs`. -/
structure ObjectLayer where
  id : Option Nat
  name : String
  color : Color
  opacity : F32
  visible : Bool
  tintcolor : Color
  offset : Ivec2
  content : List Object
  properties : PropertyContainer
  deriving DecidableEq

/-- The non-recursive fields of `GroupLayer` from `src/lib.rs`; the
recursive `content: Vec<Layer>` is carried next to it in the `Layer.group`
constructor (a nested inductive). -/
structure GroupLayerData where
  id : Option Nat
  name : String
  offset : Ivec2
  opacity : F32
  visible : Bool
  tintcolor : Color
  properties : PropertyContainer
  deriving DecidableEq

/-- `Layer` from `src/lib.rs`: tile, group (with its child layers), or
object layer. -/
inductive Layer where
  | tile (l : TileLayer) : Layer
  | group (g : GroupLayerData) (content : List Layer) : Layer
  | object (l : ObjectLayer) : Layer

/-- `parse` step used by `attribute_or` for `Color` attributes
(`Color::from_str`, wrapped into a `ParseError` by `attribute_or`). -/
def parse_color (s : String) : Option Color := (Color.from_str s).toOption

/-- `parse` for `String`-typed attributes (`String::from_str` never fails). -/
def parse_string (s : String) : Option String := some s

/-- `&str::as_point_list` from `src/lib.rs`: whitespace-separated points,
each a comma-separated `x,y` pair of floats; a point with fewer or more than
two coordinates is a `ParseError`. -/
def as_point_list (s : String) : Except Err (List Fvec2) :=
  go ((s.split (fun c => c.isWhitespace)).filter (fun w => w ≠ ""))
where
  go : List String → Except Err (List Fvec2)
    | [] => .ok []
    | point :: rest =>
      match point.splitOn "," with
      | [x, y] =>
        match parse_f32 x, parse_f32 y with
        | some fx, some fy =>
          match go rest with
          | .ok points => .ok (Fvec2.new fx fy :: points)
          | .error e => .error e
        | _, _ => .error (.parseError ("invalid float in point " ++ point))
      | _ => .error (.parseError (point ++ " is not a valid point"))

/-- `ObjectKind::from_xml`: scan the children for the first recognized
shape tag; `Rect` when none matches. -/
def ObjectKind.from_xml_loop : List XmlNode → Except Err ObjectKind
  | [] => .ok .rect
  | child :: rest =>
    if child.tag = "ellipse" then .ok .ellipse
    else if child.tag = "point" then .ok .point
    else if child.tag = "polygon" ∨ child.tag = "polyline" then
      match child.attribute "points" with
      | none => .error (.structureError child.tag "Missing attribute points")
      | some pts =>
        match as_point_list pts with
        | .error e => .error e
        | .ok points =>
          .ok (if child.tag = "polygon" then .polygon points else .polyline points)
    else if child.tag = "text" then .ok (.text (child.text.getD ""))
    else ObjectKind.from_xml_loop rest

def ObjectKind.from_xml (tmx : XmlNode) : Except Err ObjectKind :=
  ObjectKind.from_xml_loop tmx.children

/-- `Object::from_xml`. -/
def Object.from_xml (tmx : XmlNode) : Except Err Object := do
  let tile_id : Option GID ←
    match tmx.attribute "gid" with
    | some txt =>
      match parse_gid txt with
      | some g => Except.ok (some g)
      | none => Except.error (Err.parseError ("invalid gid " ++ txt))
    | none => Except.ok none
  let id ← attr_req parse_usize tmx "id"
  let name ← attr_or parse_string tmx "name" ""
  let type_ ← attr_or parse_string tmx "type" ""
  let pos ← Fvec2.from_tmx_or_default tmx "x" "y"
  let size ← Fvec2.from_tmx_or_default tmx "width" "height"
  let rotation ← attr_or parse_f32 tmx "rotation" (default : F32)
  let visible ← attr_or parse_bool tmx "visible" true
  let kind ← ObjectKind.from_xml tmx
  let properties ← PropertyContainer.from_xml tmx
  .ok ⟨id, name, type_, pos, size, rotation, tile_id, visible, kind, properties⟩

/-- Collect step for `ObjectLayer::from_xml`'s object children. -/
def objectsFromChildren : List XmlNode → Except Err (List Object)
  | [] => .ok []
  | c :: rest =>
    if c.tag = "object" then
      match Object.from_xml c with
      | .error e => .error e
      | .ok o =>
        match objectsFromChildren rest with
        | .ok os => .ok (o :: os)
        | .error e => .error e
    else objectsFromChildren rest

/-- `ObjectLayer::from_xml`: asserts the tag is `objectgroup` (panic
otherwise), collects the object children (`?` applies immediately), then
builds the fields in source order.  Note: `visible` is read - as in the
source - from the attribute named `opacity`. -/
def ObjectLayer.from_xml (tmx : XmlNode) : Res Err ObjectLayer :=
  if tmx.tag = "objectgroup" then
    match objectsFromChildren tmx.children with
    | .error e => .err e
    | .ok content =>
      match (do
        let id : Option Nat ←
          match tmx.attribute "id" with
          | some t =>
            match parse_usize t with
            | some v => Except.ok (some v)
            | none => Except.error (Err.parseError ("invalid id " ++ t))
          | none => Except.ok none
        let name ← attr_or parse_string tmx "name" ""
        let color ← attr_or parse_color tmx "color" (Color.from_argb 255 160 160 164)
        let opacity ← attr_or parse_f32 tmx "opacity" (("1" : String) : F32)
        let visible ← attr_or parse_bool tmx "opacity" true
        let tintcolor ← attr_or parse_color tmx "tintcolor" (Color.from_argb 255 255 255 255)
        let offset ← Ivec2.from_tmx_or_default tmx "offsetx" "offsety"
        let properties ← PropertyContainer.from_xml tmx
        Except.ok (⟨id, name, color, opacity, visible, tintcolor, offset, content,
          properties⟩ : ObjectLayer) : Except Err ObjectLayer) with
      | .ok l => .ok l
      | .error e => .err e
  else .panic "assertion failed: tag is not objectgroup"

/-- `TileLayer::from_xml`: fields in source order; the `data` child is
found with `.find(..).unwrap()` - a panic when it is missing - and parsed
with `parse_data`. -/
def TileLayer.from_xml (b64 : String → Except String (List Nat))
    (zlib gzip : List Nat → Except String (List Nat)) (tmx : XmlNode) :
    Res Err TileLayer :=
  match
    (match tmx.attribute "id" with
    | some t =>
      match parse_usize t with
      | some v => Res.ok (some v)
      | none => Res.err (Err.parseError ("invalid id " ++ t))
    | none => Res.ok (none : Option Nat)) with
  | .err e => .err e
  | .panic m => .panic m
  | .ok id =>
    let name := (tmx.attribute "name").getD ""
    match tmx.attribute "width" with
    | none => .err (Err.structureError tmx.tag "Required attribute width missing")
    | some wt =>
      match parse_i32 wt with
      | none => .err (Err.parseError ("invalid width " ++ wt))
      | some width =>
        match tmx.attribute "height" with
        | none => .err (Err.structureError tmx.tag "Required attribute height missing")
        | some ht =>
          match parse_i32 ht with
          | none => .err (Err.parseError ("invalid height " ++ ht))
          | some height =>
            match attr_or parse_color tmx "tintcolor" (Color.from_argb 255 255 255 255) with
            | .error e => .err e
            | .ok tintcolor =>
              match tmx.children.find? (fun n => n.tag == "data") with
              | none => .panic "called unwrap on a None value: layer has no data child"
              | some data_node =>
                match TileLayer.parse_data b64 zlib gzip data_node with
                | .err e => .err e
                | .panic m => .panic m
                | .ok tiles =>
                  match PropertyContainer.from_xml tmx with
                  | .error e => .err e
                  | .ok properties =>
                    .ok ⟨id, name, Ivec2.new width height, tintcolor, tiles, properties⟩

/-- Field construction of `GroupLayer::from_xml`, given the already
collected child layers: asserts the tag is `group`; a panic from the child
collection surfaces first (the collection ran eagerly), then the fields
are built in source order with the collected content checked (`?`) between
`tintcolor` and `properties`.  Note: both `opacity` and `visible` are
read - as in the source - from the attribute named `opacity`. -/
def GroupLayer.fields_from_xml (node : XmlNode)
    (contentRes : Res Err (List Layer)) : Res Err (GroupLayerData × List Layer) :=
  if node.tag = "group" then
    match contentRes with
    | .panic m => .panic m
    | contentRes => do
      let id : Option Nat ←
        match node.attribute "id" with
        | some t =>
          match parse_usize t with
          | some v => Res.ok (some v)
          | none => Res.err (Err.parseError ("invalid id " ++ t))
        | none => Res.ok none
      let name := (node.attribute "name").getD ""
      let offset ←
        match Ivec2.from_tmx_or_default node "offsetx" "offsety" with
        | .ok v => Res.ok v
        | .error e => Res.err e
      let opacity ←
        match attr_or parse_f32 node "opacity" (("1" : String) : F32) with
        | .ok v => Res.ok v
        | .error e => Res.err e
      let visible ←
        match attr_or parse_bool node "opacity" true with
        | .ok v => Res.ok v
        | .error e => Res.err e
      let tintcolor ←
        match attr_or parse_color node "tintcolor" (Color.from_argb 255 255 255 255) with
        | .ok v => Res.ok v
        | .error e => Res.err e
      let content ← contentRes
      let properties ←
        match PropertyContainer.from_xml node with
        | .ok p => Res.ok p
        | .error e => Res.err e
      Res.ok (⟨id, name, offset, opacity, visible, tintcolor, properties⟩, content)
  else .panic "assertion failed: tag is not group"

theorem sizeOf_children_lt (node : XmlNode) : sizeOf node.children < sizeOf node := by
  cases node with
  | mk t a c x => simp [XmlNode.children]; omega

mutual

/-- `Layer::try_from_xml`: dispatch on the tag name; unrecognized tags give
`None` (they are skipped by the caller). -/
def Layer.try_from_xml (b64 : String → Except String (List Nat))
    (zlib gzip : List Nat → Except String (List Nat)) (node : XmlNode) :
    Option (Res Err Layer) :=
  if node.tag = "layer" then
    some ((TileLayer.from_xml b64 zlib gzip node).map Layer.tile)
  else if node.tag = "group" then
    some ((GroupLayer.fields_from_xml node
      (layersFromChildren b64 zlib gzip node.children)).map
      (fun p => Layer.group p.1 p.2))
  else if node.tag = "objectgroup" then
    some ((ObjectLayer.from_xml node).map Layer.object)
  else none
termination_by sizeOf node
decreasing_by
  all_goals simp_wf
  all_goals exact sizeOf_children_lt node

/-- `filter_map(try_from_xml).collect::<Result<Vec<_>>>` over child nodes. -/
def layersFromChildren (b64 : String → Except String (List Nat))
    (zlib gzip : List Nat → Except String (List Nat)) :
    List XmlNode → Res Err (List Layer)
  | [] => .ok []
  | c :: rest =>
    match Layer.try_from_xml b64 zlib gzip c with
    | none => layersFromChildren b64 zlib gzip rest
    | some (.err e) => .err e
    | some (.panic m) => .panic m
    | some (.ok l) =>
      match layersFromChildren b64 zlib gzip rest with
      | .ok ls => .ok (l :: ls)
      | .err e => .err e
      | .panic m => .panic m
termination_by nodes => sizeOf nodes
decreasing_by
  all_goals simp_wf
  all_goals omega

end

/-- `GroupLayer::from_xml`: collect the child layers, then build the
fields (see `GroupLayer.fields_from_xml`). -/
def GroupLayer.from_xml (b64 : String → Except String (List Nat))
    (zlib gzip : List Nat → Except String (List Nat)) (node : XmlNode) :
    Res Err (GroupLayerData × List Layer) :=
  GroupLayer.fields_from_xml node (layersFromChildren b64 zlib gzip node.children)

/-- C4 counterexample: a `data` node with `encoding="csv"` makes
`read_data_tag` panic (`todo!`) instead of reporting an error, and a
successfully decoded payload of 3 bytes (base64 `AAAA`) makes
`TileLayer::parse_data` panic on the `assert!` that the byte count is a
multiple of 4 instead of reporting an error.  This refutes the claim that
tile-data decoding never panics on such inputs. -/
theorem data_decoding_panic_counterexample :
    (read_data_tag (fun _ => .ok []) (fun b => .ok b) (fun b => .ok b)
        (.mk "data" [("encoding", "csv")] [] none)).isPanic = true ∧
    (read_data_tag (fun _ => .ok []) (fun b => .ok b) (fun b => .ok b)
        (.mk "data" [("encoding", "csv")] [] none)).isErr = false ∧
    (TileLayer.parse_data (fun _ => .ok [0, 0, 0]) (fun b => .ok b) (fun b => .ok b)
        (.mk "data" [("encoding", "base64")] [] (some "AAAA"))).isPanic = true ∧
    (TileLayer.parse_data (fun _ => .ok [0, 0, 0]) (fun b => .ok b) (fun b => .ok b)
        (.mk "data" [("encoding", "base64")] [] (some "AAAA"))).isErr = false :=
  ⟨rfl, rfl, rfl, rfl⟩

/-- C4 (amended): tile-data decoding reports an error for an unknown
encoding other than csv, for an unknown compression, for malformed base64
and for corrupt zlib/gzip streams - the structural errors naming the
offending tag; but the csv encoding hits a `todo!` panic rather than an
error, and a decoded byte count that is not divisible by 4 hits an
`assert!` panic rather than an error. -/
theorem data_decoding_errors_claim :
    (∀ (b64 : String → Except String (List Nat)) (zlib gzip : List Nat → Except String (List Nat))
      (node : XmlNode) (enc : String),
      node.tag = "data" → node.attribute "encoding" = some enc →
      enc ≠ "csv" → enc ≠ "base64" →
      read_data_tag b64 zlib gzip node =
        .err (.structureError node.tag ("Unsupported data encoding " ++ enc))) ∧
    (∀ (b64 : String → Except String (List Nat)) (zlib gzip : List Nat → Except String (List Nat))
      (node : XmlNode) (bytes : List Nat) (comp : String),
      node.tag = "data" → node.attribute "encoding" = some "base64" →
      b64 ((node.text.getD "").trim) = .ok bytes →
      node.attribute "compression" = some comp →
      comp ≠ "zlib" → comp ≠ "gzip" →
      read_data_tag b64 zlib gzip node =
        .err (.structureError node.tag ("Unsupported data compression " ++ comp))) ∧
    (∀ (b64 : String → Except String (List Nat)) (zlib gzip : List Nat → Except String (List Nat))
      (node : XmlNode) (e : String),
      node.tag = "data" → node.attribute "encoding" = some "base64" →
      b64 ((node.text.getD "").trim) = .error e →
      read_data_tag b64 zlib gzip node = .err (.parseError e)) ∧
    (∀ (b64 : String → Except String (List Nat)) (zlib gzip : List Nat → Except String (List Nat))
      (node : XmlNode) (bytes : List Nat) (e : String),
      node.tag = "data" → node.attribute "encoding" = some "base64" →
      b64 ((node.text.getD "").trim) = .ok bytes →
      node.attribute "compression" = some "zlib" →
      zlib bytes = .error e →
      read_data_tag b64 zlib gzip node = .err (.io e)) ∧
    (∀ (b64 : String → Except String (List Nat)) (zlib gzip : List Nat → Except String (List Nat))
      (node : XmlNode) (bytes : List Nat) (e : String),
      node.tag = "data" → node.attribute "encoding" = some "base64" →
      b64 ((node.text.getD "").trim) = .ok bytes →
      node.attribute "compression" = some "gzip" →
      gzip bytes = .error e →
      read_data_tag b64 zlib gzip node = .err (.io e)) ∧
    (∀ (b64 : String → Except String (List Nat)) (zlib gzip : List Nat → Except String (List Nat))
      (node : XmlNode),
      node.tag = "data" → node.attribute "encoding" = some "csv" →
      read_data_tag b64 zlib gzip node =
        .panic "not yet implemented: Implement csv parsing") ∧
    (∀ (b64 : String → Except String (List Nat)) (zlib gzip : List Nat → Except String (List Nat))
      (node : XmlNode) (enc : String) (bytes : List Nat),
      node.tag = "data" → node.attribute "encoding" = some enc →
      read_data_tag b64 zlib gzip node = .ok bytes →
      bytes.length % 4 ≠ 0 →
      TileLayer.parse_data b64 zlib gzip node =
        .panic "assertion failed: byte count is not a multiple of 4") := by
  refine ⟨?_, ?_, ?_, ?_, ?_, ?_, ?_⟩
  · intro b64 zlib gzip node enc htag henc hcsv hb64
    simp [read_data_tag, htag, henc, hcsv, hb64]
  · intro b64 zlib gzip node bytes comp htag henc hok hcomp hzl hgz
    simp [read_data_tag, htag, henc, hok, hcomp, hzl, hgz]
  · intro b64 zlib gzip node e htag henc herr
    simp [read_data_tag, htag, henc, herr]
  · intro b64 zlib gzip node bytes e htag henc hok hcomp herr
    simp [read_data_tag, htag, henc, hok, hcomp, herr]
  · intro b64 zlib gzip node bytes e htag henc hok hcomp herr
    simp [read_data_tag, htag, henc, hok, hcomp, herr]
  · intro b64 zlib gzip node htag henc
    simp [read_data_tag, htag, henc]
  · intro b64 zlib gzip node enc bytes htag henc hread hlen
    simp [TileLayer.parse_data, htag, henc, hread, hlen]

/-- Witness for `data_decoding_errors_claim` on concrete nodes. -/
theorem data_decoding_errors_claim_witness :
    read_data_tag (fun _ => .ok []) (fun b => .ok b) (fun b => .ok b)
        (.mk "data" [("encoding", "hex")] [] none) =
      .err (.structureError "data" "Unsupported data encoding hex") ∧
    read_data_tag (fun _ => .ok [1]) (fun b => .ok b) (fun b => .ok b)
        (.mk "data" [("encoding", "base64"), ("compression", "zstd")] [] none) =
      .err (.structureError "data" "Unsupported data compression zstd") ∧
    read_data_tag (fun _ => .error "bad base64") (fun b => .ok b) (fun b => .ok b)
        (.mk "data" [("encoding", "base64")] [] none) =
      .err (.parseError "bad base64") ∧
    read_data_tag (fun _ => .ok [1]) (fun _ => .error "corrupt zlib") (fun b => .ok b)
        (.mk "data" [("encoding", "base64"), ("compression", "zlib")] [] none) =
      .err (.io "corrupt zlib") ∧
    read_data_tag (fun _ => .ok [1]) (fun b => .ok b) (fun _ => .error "corrupt gzip")
        (.mk "data" [("encoding", "base64"), ("compression", "gzip")] [] none) =
      .err (.io "corrupt gzip") ∧
    read_data_tag (fun _ => .ok []) (fun b => .ok b) (fun b => .ok b)
        (.mk "data" [("encoding", "csv")] [] none) =
      .panic "not yet implemented: Implement csv parsing" ∧
    TileLayer.parse_data (fun _ => .ok [0, 0, 0]) (fun b => .ok b) (fun b => .ok b)
        (.mk "data" [("encoding", "base64")] [] none) =
      .panic "assertion failed: byte count is not a multiple of 4" :=
  ⟨data_decoding_errors_claim.1 _ _ _ _ "hex" rfl rfl (by decide) (by decide),
    data_decoding_errors_claim.2.1 _ _ _ _ [1] "zstd" rfl rfl rfl rfl (by decide) (by decide),
    data_decoding_errors_claim.2.2.1 _ _ _ _ "bad base64" rfl rfl rfl,
    data_decoding_errors_claim.2.2.2.1 _ _ _ _ [1] "corrupt zlib" rfl rfl rfl rfl rfl,
    data_decoding_errors_claim.2.2.2.2.1 _ _ _ _ [1] "corrupt gzip" rfl rfl rfl rfl rfl,
    data_decoding_errors_claim.2.2.2.2.2.1 _ _ _ _ rfl rfl,
    data_decoding_errors_claim.2.2.2.2.2.2 _ _ _ _ "base64" [0, 0, 0] rfl rfl rfl
      (by decide)⟩

theorem gidsOfBytes_length : ∀ bytes : List Nat,
    (gidsOfBytes bytes).length = bytes.length / 4
  | b0 :: b1 :: b2 :: b3 :: rest => by
    simp [gidsOfBytes, gidsOfBytes_length rest]
    omega
  | [] => rfl
  | [_] => by simp [gidsOfBytes]
  | [_, _] => by simp [gidsOfBytes]
  | [_, _, _] => by simp [gidsOfBytes]

theorem gidsOfBytes_get? : ∀ (bytes : List Nat) (j : Nat), j < bytes.length / 4 →
    (gidsOfBytes bytes).get? j = some (
      if u32_from_le_bytes (bytes.getD (4 * j) 0) (bytes.getD (4 * j + 1) 0)
          (bytes.getD (4 * j + 2) 0) (bytes.getD (4 * j + 3) 0) = 0 then none
      else some ((u32_from_le_bytes (bytes.getD (4 * j) 0) (bytes.getD (4 * j + 1) 0)
          (bytes.getD (4 * j + 2) 0) (bytes.getD (4 * j + 3) 0) : Nat) : GID))
  | b0 :: b1 :: b2 :: b3 :: rest, 0, _h => by
    simp [gidsOfBytes]
  | b0 :: b1 :: b2 :: b3 :: rest, j + 1, h => by
    have hj : j < rest.length / 4 := by
      simp only [List.length_cons] at h
      omega
    have ih := gidsOfBytes_get? rest j hj
    have e0 : 4 * (j + 1) = (4 * j) + 4 := by ring
    have e1 : 4 * (j + 1) + 1 = (4 * j + 1) + 4 := by ring
    have e2 : 4 * (j + 1) + 2 = (4 * j + 2) + 4 := by ring
    have e3 : 4 * (j + 1) + 3 = (4 * j + 3) + 4 := by ring
    have g0 : (b0 :: b1 :: b2 :: b3 :: rest).getD (4 * (j + 1)) 0 =
        rest.getD (4 * j) 0 := by rw [e0]; rfl
    have g1 : (b0 :: b1 :: b2 :: b3 :: rest).getD (4 * (j + 1) + 1) 0 =
        rest.getD (4 * j + 1) 0 := by rw [e1]; rfl
    have g2 : (b0 :: b1 :: b2 :: b3 :: rest).getD (4 * (j + 1) + 2) 0 =
        rest.getD (4 * j + 2) 0 := by rw [e2]; rfl
    have g3 : (b0 :: b1 :: b2 :: b3 :: rest).getD (4 * (j + 1) + 3) 0 =
        rest.getD (4 * j + 3) 0 := by rw [e3]; rfl
    rw [g0, g1, g2, g3]
    show (gidsOfBytes rest).get? j = _
    exact ih
  | [], j, h => by simp only [List.length_nil] at h; omega
  | [_], j, h => by simp only [List.length_cons, List.length_nil] at h; omega
  | [_, _], j, h => by simp only [List.length_cons, List.length_nil] at h; omega
  | [_, _, _], j, h => by simp only [List.length_cons, List.length_nil] at h; omega

/-- C5: a successfully decoded byte payload whose length is a multiple of 4
is reinterpreted little-endian as consecutive 32-bit raw tile ids; a zero
raw id becomes `None` and any other becomes `Some(GID(id))` with all 32
bits - including the three flip bits - retained. -/
theorem parse_data_gids_claim :
    ∀ (b64 : String → Except String (List Nat))
      (zlib gzip : List Nat → Except String (List Nat))
      (node : XmlNode) (enc : String) (bytes : List Nat),
      node.tag = "data" → node.attribute "encoding" = some enc →
      read_data_tag b64 zlib gzip node = .ok bytes →
      bytes.length % 4 = 0 →
      TileLayer.parse_data b64 zlib gzip node = .ok (gidsOfBytes bytes) ∧
      (gidsOfBytes bytes).length = bytes.length / 4 ∧
      ∀ j : Nat, j < bytes.length / 4 →
        (gidsOfBytes bytes).get? j = some (
          if u32_from_le_bytes (bytes.getD (4 * j) 0) (bytes.getD (4 * j + 1) 0)
              (bytes.getD (4 * j + 2) 0) (bytes.getD (4 * j + 3) 0) = 0 then none
          else some ((u32_from_le_bytes (bytes.getD (4 * j) 0) (bytes.getD (4 * j + 1) 0)
              (bytes.getD (4 * j + 2) 0) (bytes.getD (4 * j + 3) 0) : Nat) : GID)) := by
  intro b64 zlib gzip node enc bytes htag henc hread hlen
  refine ⟨?_, gidsOfBytes_length bytes, fun j hj => gidsOfBytes_get? bytes j hj⟩
  simp [TileLayer.parse_data, htag, henc, hread, hlen]

/-- Witness for `parse_data_gids_claim`: an 8-byte payload holding the raw
ids 0 and 0x80000031 (tile 49 with the horizontal flip bit). -/
theorem parse_data_gids_claim_witness :
    TileLayer.parse_data (fun _ => .ok [0, 0, 0, 0, 49, 0, 0, 128])
        (fun b => .ok b) (fun b => .ok b)
        (.mk "data" [("encoding", "base64")] [] none) =
      .ok [none, some (2147483697 : GID)] ∧
    (2147483697 : GID).to_id = 49 ∧ (2147483697 : GID).flip_horizontal = true := by
  have h := (parse_data_gids_claim (fun _ => .ok [0, 0, 0, 0, 49, 0, 0, 128])
    (fun b => .ok b) (fun b => .ok b)
    (.mk "data" [("encoding", "base64")] [] none) "base64" [0, 0, 0, 0, 49, 0, 0, 128]
    rfl rfl rfl (by decide)).1
  refine ⟨?_, by decide, by decide⟩
  rw [h]
  decide

/-- C2: evaluation of the parsers at the failing input.  A `group` node
carrying `visible="false"` (and no `opacity` attribute) parses with
`visible = true`, and likewise for an `objectgroup` node, because both
`GroupLayer::from_xml` and `ObjectLayer::from_xml` read the `visible` field
from the attribute named `opacity` (`attribute_or(node, "opacity", true)`),
never consulting the `visible` attribute.  As a side effect, a group whose
`opacity` attribute holds a number such as `0.5` fails to parse at all,
because that text is also fed to the `bool` parser. -/
theorem layer_visible_bug_eval :
    (GroupLayer.from_xml (fun _ => .ok []) (fun b => .ok b) (fun b => .ok b)
        (.mk "group" [("visible", "false")] [] none)).map (fun p => p.1.visible) =
      .ok true ∧
    XmlNode.attribute (.mk "group" [("visible", "false")] [] none) "visible" =
      some "false" ∧
    (ObjectLayer.from_xml (.mk "objectgroup" [("visible", "false")] [] none)).map
        (fun l => l.visible) = .ok true ∧
    XmlNode.attribute (.mk "objectgroup" [("visible", "false")] [] none) "visible" =
      some "false" ∧
    (GroupLayer.from_xml (fun _ => .ok []) (fun b => .ok b) (fun b => .ok b)
        (.mk "group" [("opacity", "0.5")] [] none)).isErr = true := by
  have hempty : layersFromChildren (fun _ => .ok ([] : List Nat))
      (fun b => .ok b) (fun b => .ok b) ([] : List XmlNode) = .ok [] := by
    simp [layersFromChildren]
  refine ⟨?_, rfl, by decide, rfl, ?_⟩
  · show (GroupLayer.fields_from_xml (.mk "group" [("visible", "false")] [] none)
      (layersFromChildren _ _ _ (XmlNode.children (.mk "group" [("visible", "false")] [] none)))).map
        (fun p => p.1.visible) = .ok true
    rw [show XmlNode.children (.mk "group" [("visible", "false")] [] none) = [] from rfl,
      hempty]
    decide
  · show (GroupLayer.fields_from_xml (.mk "group" [("opacity", "0.5")] [] none)
      (layersFromChildren _ _ _ (XmlNode.children (.mk "group" [("opacity", "0.5")] [] none)))).isErr = true
    rw [show XmlNode.children (.mk "group" [("opacity", "0.5")] [] none) = [] from rfl,
      hempty]
    decide

/-- `TileSet` from `src/lib.rs`.  The image handle
(`ImageStorage::SpriteSheet(Rc<dyn Any>)`) is modelled as a `Nat` identity.
`TileSet::from_xml` is not embedded: no claim concerns tileset parsing. -/
structure TileSet where
  firstgid : GID
  name : String
  tile_size : Ivec2
  spacing : Nat
  margin : Nat
  tilecount : Nat
  columns : Nat
  image : Nat
  properties : PropertyContainer
  deriving DecidableEq

/-- The `Map` fields that the claims touch (`version`, `editor_version` and
`orientation` are plain parsed data that no claim mentions and are omitted). -/
structure Map where
  renderorder : Renderorder
  size : Ivec2
  tile_size : Ivec2
  tilesets : List TileSet
  backgroundcolor : Color
  layers : List Layer
  properties : PropertyContainer

/-- `usize as i32` - two's-complement truncation of an unsigned value. -/
def usize_as_i32 (n : Nat) : Int :=
  let m : Nat := n % 2 ^ 32
  if m < 2 ^ 31 then (m : Int) else (m : Int) - 2 ^ 32

/-- `Iterator::rfind`: the first match scanning from the back. -/
def rfind? {α : Type} (p : α → Bool) (l : List α) : Option α :=
  l.reverse.find? p

/-- `Map::tile_image` from `src/lib.rs`.  The tileset search
`self.tilesets.iter().rfind(|t| t.firstgid <= id)` compares GIDs with the
derived `Ord`, i.e. on the raw `NonZeroU32` values - the flip bits are not
masked for the comparison.  Masking happens only afterwards: the local id is
the `u32` difference `id.to_id() - tileset.firstgid.to_id()`, which panics
on underflow in a debug build (a release build wraps); the model makes the
underflow an explicit panic.  `lid % columns` and `lid / columns` are `i32`
operations (truncating), and panic when `columns as i32` is zero. -/
def Map.tile_image (m : Map) (id : GID) : Res Err (Option (Nat × Rect)) :=
  match rfind? (fun t => Nat.ble (GID.as_raw t.firstgid) (GID.as_raw id)) m.tilesets with
  | none => .ok none
  | some tileset =>
    let size := Ivec2.new tileset.tile_size.x tileset.tile_size.y
    let stride := Ivec2.add size
      (Ivec2.new (usize_as_i32 tileset.spacing) (usize_as_i32 tileset.spacing))
    if GID.to_id id < GID.to_id tileset.firstgid then
      .panic "attempt to subtract with overflow"
    else
      let lid : Int := ((GID.to_id id - GID.to_id tileset.firstgid : Nat) : Int)
      let cols : Int := usize_as_i32 tileset.columns
      if cols = 0 then .panic "attempt to calculate the remainder with a divisor of zero"
      else
        let tile_id := Ivec2.new (Int.tmod lid cols) (Int.tdiv lid cols)
        let upper_left := Ivec2.add
          (Ivec2.new (usize_as_i32 tileset.margin) (usize_as_i32 tileset.margin))
          (Ivec2.mul tile_id stride)
        .ok (some (tileset.image, Rect.new upper_left size))

/-- C1: evaluation of `Map::tile_image` at the failing input.  With tilesets
of firstgid 1 and 50, the plain ids behave as the claim says (49 resolves in
the first tileset, 50 in the second, and an id below the smallest firstgid
resolves to None); but the GID 0x80000031 - tile 49 with the horizontal
flip bit set - selects the tileset with firstgid 50, because the `rfind`
comparison uses the raw unmasked value (0x80000031 is at least 50), and the
local-id subtraction 49 - 50 then underflows `u32` (a panic in debug
builds), instead of masking first and resolving to the first tileset as the
claim requires.  A flipped id whose masked value lies below every firstgid
likewise selects the last tileset instead of resolving to None. -/
theorem tile_image_claim_eval :
    (Map.mk .rightDown ⟨4, 4⟩ ⟨16, 16⟩
        [⟨1, "a", ⟨16, 16⟩, 0, 0, 49, 7, 0, .new⟩,
          ⟨50, "b", ⟨16, 16⟩, 0, 0, 100, 10, 1, .new⟩]
        Color.default [] .new).tile_image (49 : GID) =
      .ok (some (0, Rect.new ⟨16 * 6, 16 * 6⟩ ⟨16, 16⟩)) ∧
    (Map.mk .rightDown ⟨4, 4⟩ ⟨16, 16⟩
        [⟨1, "a", ⟨16, 16⟩, 0, 0, 49, 7, 0, .new⟩,
          ⟨50, "b", ⟨16, 16⟩, 0, 0, 100, 10, 1, .new⟩]
        Color.default [] .new).tile_image (50 : GID) =
      .ok (some (1, Rect.new ⟨0, 0⟩ ⟨16, 16⟩)) ∧
    (Map.mk .rightDown ⟨4, 4⟩ ⟨16, 16⟩
        [⟨50, "b", ⟨16, 16⟩, 0, 0, 100, 10, 1, .new⟩]
        Color.default [] .new).tile_image (49 : GID) = .ok none ∧
    (GID.to_id (0x80000031 : GID) = 49 ∧ (0x80000031 : GID).flip_horizontal = true) ∧
    rfind? (fun t => Nat.ble (GID.as_raw t.firstgid) (GID.as_raw (0x80000031 : GID)))
        [(⟨1, "a", ⟨16, 16⟩, 0, 0, 49, 7, 0, .new⟩ : TileSet),
          ⟨50, "b", ⟨16, 16⟩, 0, 0, 100, 10, 1, .new⟩] =
      some ⟨50, "b", ⟨16, 16⟩, 0, 0, 100, 10, 1, .new⟩ ∧
    (Map.mk .rightDown ⟨4, 4⟩ ⟨16, 16⟩
        [⟨1, "a", ⟨16, 16⟩, 0, 0, 49, 7, 0, .new⟩,
          ⟨50, "b", ⟨16, 16⟩, 0, 0, 100, 10, 1, .new⟩]
        Color.default [] .new).tile_image (0x80000031 : GID) =
      .panic "attempt to subtract with overflow" ∧
    (Map.mk .rightDown ⟨4, 4⟩ ⟨16, 16⟩
        [⟨50, "b", ⟨16, 16⟩, 0, 0, 100, 10, 1, .new⟩]
        Color.default [] .new).tile_image (0x80000001 : GID) ≠ .ok none := by
  refine ⟨by decide, by decide, by decide, ⟨by decide, by decide⟩, by decide, by decide,
    by decide⟩

/-- One step of `TileIterator::next` from `src/lib.rs`, as a function of the
map's render order, the layer, and the iterator position: assert the render
order is right-down (panic otherwise), roll the cursor over to the next row
when `pos.x >= size.x`, stop when `pos.y >= size.y`, otherwise yield the
tile at index `pos.x + size.x * pos.y` (`tiles[idx as usize]` - a negative
index or one past the end of `tiles` is an out-of-bounds panic) and advance
`pos.x`. -/
def TileIterator.next (ro : Renderorder) (layer : TileLayer) (pos : Ivec2) :
    Res Err (Option ((Ivec2 × Option GID) × Ivec2)) :=
  if ro = .rightDown then
    let pos1 := if pos.x ≥ layer.size.x then Ivec2.new 0 (pos.y + 1) else pos
    if pos1.y ≥ layer.size.y then .ok none
    else
      let idx : Int := pos1.x + layer.size.x * pos1.y
      if 0 ≤ idx ∧ idx.toNat < layer.tiles.length then
        .ok (some ((pos1, layer.tiles.getD idx.toNat none), Ivec2.new (pos1.x + 1) pos1.y))
      else .panic "index out of bounds"
  else .panic "Only right-down renderorder is implemented right now"

/-- Fuel bound for running the tile iterator to completion. -/
def tileFuel (layer : TileLayer) (pos : Ivec2) : Nat :=
  (layer.size.y - pos.y).toNat * (layer.size.x.toNat + 2) + (layer.size.x - pos.x).toNat + 1

/-- Fuelled driver of the tile iterator. -/
def TileIterator.runF : Nat → Renderorder → TileLayer → Ivec2 →
    Res Err (List (Ivec2 × Option GID))
  | 0, _, _, _ => .ok []
  | fuel + 1, ro, layer, pos =>
    match TileIterator.next ro layer pos with
    | .ok none => .ok []
    | .ok (some (item, pos')) =>
      match TileIterator.runF fuel ro layer pos' with
      | .ok items => .ok (item :: items)
      | .err e => .err e
      | .panic m => .panic m
    | .err e => .err e
    | .panic m => .panic m

/-- `TileLayer::tiles_in_renderorder` driven to completion: the sequence of
`(position, tile)` items the iterator yields (an error/panic outcome if a
step panics).  `tileFuel` strictly exceeds the number of remaining steps, so
the fuel never runs out (`runF_run`/`run_eq`). -/
def TileIterator.run (ro : Renderorder) (layer : TileLayer) (pos : Ivec2) :
    Res Err (List (Ivec2 × Option GID)) :=
  TileIterator.runF (tileFuel layer pos) ro layer pos

theorem tileFuel_decr {ro : Renderorder} {layer : TileLayer} {pos pos' : Ivec2}
    {item : Ivec2 × Option GID}
    (h : TileIterator.next ro layer pos = .ok (some (item, pos'))) :
    tileFuel layer pos' < tileFuel layer pos := by
  unfold TileIterator.next at h
  by_cases hro : ro = .rightDown
  · rw [if_pos hro] at h
    simp only at h
    by_cases hroll : pos.x ≥ layer.size.x
    · rw [if_pos hroll] at h
      by_cases hy : (Ivec2.new 0 (pos.y + 1)).y ≥ layer.size.y
      · rw [if_pos hy] at h
        cases h
      · rw [if_neg hy] at h
        by_cases hidx : 0 ≤ (Ivec2.new 0 (pos.y + 1)).x +
            layer.size.x * (Ivec2.new 0 (pos.y + 1)).y ∧
            ((Ivec2.new 0 (pos.y + 1)).x +
              layer.size.x * (Ivec2.new 0 (pos.y + 1)).y).toNat < layer.tiles.length
        · rw [if_pos hidx] at h
          cases h
          unfold tileFuel
          simp only [Ivec2.new] at hy ⊢
          have hy' : pos.y + 1 < layer.size.y := by omega
          have h1 : (layer.size.y - (pos.y + 1)).toNat + 1 = (layer.size.y - pos.y).toNat := by
            omega
          have hf : (layer.size.y - pos.y).toNat * (layer.size.x.toNat + 2) =
              (layer.size.y - (pos.y + 1)).toNat * (layer.size.x.toNat + 2) +
                (layer.size.x.toNat + 2) := by
            rw [← h1]; ring
          have h2 : (layer.size.x - (0 + 1)).toNat ≤ layer.size.x.toNat := by omega
          omega
        · rw [if_neg hidx] at h
          cases h
    · rw [if_neg hroll] at h
      by_cases hy : pos.y ≥ layer.size.y
      · rw [if_pos hy] at h
        cases h
      · rw [if_neg hy] at h
        by_cases hidx : 0 ≤ pos.x + layer.size.x * pos.y ∧
            (pos.x + layer.size.x * pos.y).toNat < layer.tiles.length
        · rw [if_pos hidx] at h
          cases h
          unfold tileFuel
          simp only [Ivec2.new]
          have hx : pos.x < layer.size.x := by omega
          have h1 : (layer.size.x - (pos.x + 1)).toNat + 1 = (layer.size.x - pos.x).toNat := by
            omega
          omega
        · rw [if_neg hidx] at h
          cases h
  · rw [if_neg hro] at h
    cases h

theorem runF_adequate (ro : Renderorder) (layer : TileLayer) :
    ∀ (fuel : Nat) (pos : Ivec2), tileFuel layer pos ≤ fuel →
    TileIterator.runF fuel ro layer pos =
      TileIterator.runF (tileFuel layer pos) ro layer pos := by
  intro fuel
  induction fuel using Nat.strong_induction_on with
  | _ fuel ih =>
    intro pos hle
    have hpos : 0 < tileFuel layer pos := by unfold tileFuel; omega
    obtain ⟨f1, rfl⟩ : ∃ f1, fuel = f1 + 1 := ⟨fuel - 1, by omega⟩
    obtain ⟨t1, ht1⟩ : ∃ t1, tileFuel layer pos = t1 + 1 :=
      ⟨tileFuel layer pos - 1, by omega⟩
    rw [ht1]
    cases hnext : TileIterator.next ro layer pos with
    | ok o =>
      cases o with
      | none => simp [TileIterator.runF, hnext]
      | some ip =>
        obtain ⟨item, pos'⟩ := ip
        have hdec := tileFuel_decr hnext
        simp only [TileIterator.runF, hnext]
        rw [ih f1 (by omega) pos' (by omega), ih t1 (by omega) pos' (by omega)]
    | err e => simp [TileIterator.runF, hnext]
    | panic m => simp [TileIterator.runF, hnext]

/-- Unfolding rule for `TileIterator.run`. -/
theorem tileIter_run_eq (ro : Renderorder) (layer : TileLayer) (pos : Ivec2) :
    TileIterator.run ro layer pos =
      (match TileIterator.next ro layer pos with
      | Res.ok none => Res.ok []
      | Res.ok (some (item, pos')) =>
        match TileIterator.run ro layer pos' with
        | Res.ok items => Res.ok (item :: items)
        | Res.err e => Res.err e
        | Res.panic m => Res.panic m
      | Res.err e => Res.err e
      | Res.panic m => Res.panic m) := by
  have hpos : 0 < tileFuel layer pos := by unfold tileFuel; omega
  obtain ⟨t1, ht1⟩ : ∃ t1, tileFuel layer pos = t1 + 1 :=
    ⟨tileFuel layer pos - 1, by omega⟩
  conv_lhs => rw [show TileIterator.run ro layer pos =
    TileIterator.runF (tileFuel layer pos) ro layer pos from rfl, ht1]
  cases hnext : TileIterator.next ro layer pos with
  | ok o =>
    cases o with
    | none => simp [TileIterator.runF, hnext]
    | some ip =>
      obtain ⟨item, pos'⟩ := ip
      have hdec := tileFuel_decr hnext
      simp only [TileIterator.runF, hnext]
      rw [runF_adequate ro layer t1 pos' (by omega)]
      rfl
  | err e => simp [TileIterator.runF, hnext]
  | panic m => simp [TileIterator.runF, hnext]

/-- Row-major enumeration of a W-by-H grid from column `x` of row `y` on:
cell `(x, y)` carries the tile at flat index `x + W * y`. -/
def expectedRow (tiles : List (Option GID)) (W y : Nat) (x : Nat) :
    List (Ivec2 × Option GID) :=
  if x < W then
    (Ivec2.new (x : Int) (y : Int), tiles.getD (x + W * y) none) ::
      expectedRow tiles W y (x + 1)
  else []
termination_by W - x

/-- All rows of the row-major enumeration from row `y` on. -/
def expectedRows (tiles : List (Option GID)) (W H : Nat) (y : Nat) :
    List (Ivec2 × Option GID) :=
  if y < H then expectedRow tiles W y 0 ++ expectedRows tiles W H (y + 1)
  else []
termination_by H - y

theorem next_mid (layer : TileLayer) (W H x y : Nat)
    (hsx : layer.size.x = (W : Int)) (hsy : layer.size.y = (H : Int))
    (hlen : layer.tiles.length = W * H) (hx : x < W) (hy : y < H) :
    TileIterator.next .rightDown layer (Ivec2.new (x : Int) (y : Int)) =
      .ok (some ((Ivec2.new (x : Int) (y : Int), layer.tiles.getD (x + W * y) none),
        Ivec2.new ((x : Int) + 1) (y : Int))) := by
  unfold TileIterator.next
  rw [if_pos rfl]
  simp only [Ivec2.new, hsx, hsy]
  have hrx : ¬((x : Int) ≥ (W : Int)) := by exact_mod_cast Nat.not_le.mpr hx
  rw [if_neg hrx]
  have hry : ¬((y : Int) ≥ (H : Int)) := by exact_mod_cast Nat.not_le.mpr hy
  rw [if_neg hry]
  have hidxe : (x : Int) + (W : Int) * (y : Int) = ((x + W * y : Nat) : Int) := by
    push_cast
    ring
  have hbound : x + W * y < layer.tiles.length := by
    rw [hlen]
    have h1 : W * (y + 1) ≤ W * H := Nat.mul_le_mul_left W hy
    have h2 : W * (y + 1) = W * y + W := by ring
    omega
  rw [if_pos ?hc]
  case hc =>
    constructor
    · rw [hidxe]
      exact Int.natCast_nonneg _
    · rw [hidxe, Int.toNat_natCast]
      exact hbound
  rw [hidxe, Int.toNat_natCast]

theorem next_stop (layer : TileLayer) (W H x y : Nat)
    (hsx : layer.size.x = (W : Int)) (hsy : layer.size.y = (H : Int))
    (hx : x < W) (hy : H ≤ y) :
    TileIterator.next .rightDown layer (Ivec2.new (x : Int) (y : Int)) = .ok none := by
  unfold TileIterator.next
  rw [if_pos rfl]
  simp only [Ivec2.new, hsx, hsy]
  have hrx : ¬((x : Int) ≥ (W : Int)) := by exact_mod_cast Nat.not_le.mpr hx
  rw [if_neg hrx]
  have hry : (y : Int) ≥ (H : Int) := by exact_mod_cast hy
  rw [if_pos hry]

theorem next_endrow (layer : TileLayer) (W H y : Nat)
    (hsx : layer.size.x = (W : Int)) (hsy : layer.size.y = (H : Int))
    (hlen : layer.tiles.length = W * H) (hW : 0 < W) (hy1 : y + 1 < H) :
    TileIterator.next .rightDown layer (Ivec2.new (W : Int) (y : Int)) =
      .ok (some ((Ivec2.new (0 : Int) ((y + 1 : Nat) : Int),
        layer.tiles.getD (W * (y + 1)) none),
        Ivec2.new (1 : Int) ((y + 1 : Nat) : Int))) := by
  unfold TileIterator.next
  rw [if_pos rfl]
  simp only [Ivec2.new, hsx, hsy]
  have hrx : (W : Int) ≥ (W : Int) := le_refl _
  rw [if_pos hrx]
  have hry : ¬((y : Int) + 1 ≥ (H : Int)) := by
    rw [show ((y : Int) + 1) = ((y + 1 : Nat) : Int) by push_cast; ring]
    exact_mod_cast Nat.not_le.mpr hy1
  rw [if_neg hry]
  have hidxe : (0 : Int) + (W : Int) * ((y : Int) + 1) = ((W * (y + 1) : Nat) : Int) := by
    push_cast
    ring
  have hbound : W * (y + 1) < layer.tiles.length := by
    rw [hlen]
    have h1 : W * (y + 2) ≤ W * H := Nat.mul_le_mul_left W hy1
    have h2 : W * (y + 2) = W * (y + 1) + W := by ring
    omega
  rw [if_pos ?hc]
  case hc =>
    constructor
    · rw [hidxe]
      exact Int.natCast_nonneg _
    · rw [hidxe, Int.toNat_natCast]
      exact hbound
  rw [hidxe, Int.toNat_natCast]
  norm_num

theorem next_endmap (layer : TileLayer) (W H y : Nat)
    (hsx : layer.size.x = (W : Int)) (hsy : layer.size.y = (H : Int))
    (hy1 : H ≤ y + 1) :
    TileIterator.next .rightDown layer (Ivec2.new (W : Int) (y : Int)) = .ok none := by
  unfold TileIterator.next
  rw [if_pos rfl]
  simp only [Ivec2.new, hsx, hsy]
  have hrx : (W : Int) ≥ (W : Int) := le_refl _
  rw [if_pos hrx]
  have hry : (y : Int) + 1 ≥ (H : Int) := by
    rw [show ((y : Int) + 1) = ((y + 1 : Nat) : Int) by push_cast; ring]
    exact_mod_cast hy1
  rw [if_pos hry]

theorem tileIter_row (layer : TileLayer) (W H : Nat)
    (hsx : layer.size.x = (W : Int)) (hsy : layer.size.y = (H : Int))
    (hlen : layer.tiles.length = W * H) (hW : 0 < W)
    (x y : Nat) (hx : x ≤ W) (hy : y < H) :
    TileIterator.run .rightDown layer (Ivec2.new (x : Int) (y : Int)) =
      .ok (expectedRow layer.tiles W y x ++ expectedRows layer.tiles W H (y + 1)) := by
  rw [tileIter_run_eq]
  by_cases hxW : x < W
  · rw [next_mid layer W H x y hsx hsy hlen hxW hy]
    dsimp only
    have hrec := tileIter_row layer W H hsx hsy hlen hW (x + 1) y hxW hy
    rw [show (Ivec2.new ((x : Int) + 1) (y : Int)) =
      (Ivec2.new ((x + 1 : Nat) : Int) (y : Int)) by norm_num]
    rw [hrec]
    rw [show expectedRow layer.tiles W y x =
      (Ivec2.new (x : Int) (y : Int), layer.tiles.getD (x + W * y) none) ::
        expectedRow layer.tiles W y (x + 1) by rw [expectedRow, if_pos hxW]]
    rfl
  · have hxW' : x = W := by omega
    rw [hxW']
    rw [show expectedRow layer.tiles W y W = [] by rw [expectedRow]; simp]
    by_cases hy1 : y + 1 < H
    · rw [next_endrow layer W H y hsx hsy hlen hW hy1]
      dsimp only
      have hrec := tileIter_row layer W H hsx hsy hlen hW 1 (y + 1) hW hy1
      rw [show (Ivec2.new (1 : Int) ((y + 1 : Nat) : Int)) =
        (Ivec2.new ((1 : Nat) : Int) ((y + 1 : Nat) : Int)) by norm_num]
      rw [hrec]
      rw [show expectedRows layer.tiles W H (y + 1) =
        expectedRow layer.tiles W (y + 1) 0 ++ expectedRows layer.tiles W H (y + 2) by
          rw [expectedRows, if_pos hy1]]
      rw [show expectedRow layer.tiles W (y + 1) 0 =
        (Ivec2.new ((0 : Nat) : Int) ((y + 1 : Nat) : Int),
          layer.tiles.getD (0 + W * (y + 1)) none) ::
          expectedRow layer.tiles W (y + 1) 1 by rw [expectedRow, if_pos hW]]
      simp
    · rw [next_endmap layer W H y hsx hsy (by omega)]
      rw [show expectedRows layer.tiles W H (y + 1) = [] by rw [expectedRows, if_neg hy1]]
      rfl
termination_by (H - y) * (W + 1) + (W - x)
decreasing_by
  all_goals simp_wf
  all_goals try omega
  all_goals
    have hrw : (H - y) * (W + 1) = (H - (y + 1)) * (W + 1) + (W + 1) := by
      have h1 : H - y = (H - (y + 1)) + 1 := by omega
      rw [h1]
      ring
    omega

/-- Row-major traversal of a consistent tile layer: starting at the origin,
the right-down tile iterator yields every cell `(x, y)` exactly once, rows
top to bottom and cells left to right within a row, each carrying
`tiles[x + W * y]`. -/
theorem tileIter_rowmajor (layer : TileLayer) (W H : Nat)
    (hsx : layer.size.x = (W : Int)) (hsy : layer.size.y = (H : Int))
    (hlen : layer.tiles.length = W * H) (hW : 0 < W) :
    TileIterator.run .rightDown layer (Ivec2.new 0 0) =
      .ok (expectedRows layer.tiles W H 0) := by
  cases Nat.eq_zero_or_pos H with
  | inl h0 =>
    subst h0
    rw [tileIter_run_eq]
    rw [show (Ivec2.new (0 : Int) (0 : Int)) =
      (Ivec2.new ((0 : Nat) : Int) ((0 : Nat) : Int)) by norm_num]
    rw [next_stop layer W 0 0 0 hsx hsy hW (le_refl 0)]
    rw [show expectedRows layer.tiles W 0 0 = [] by rw [expectedRows]; simp]
  | inr hH =>
    have h := tileIter_row layer W H hsx hsy hlen hW 0 0 (by omega) hH
    rw [show (Ivec2.new (0 : Int) (0 : Int)) =
      (Ivec2.new ((0 : Nat) : Int) ((0 : Nat) : Int)) by norm_num]
    rw [h]
    rw [show expectedRows layer.tiles W H 0 =
      expectedRow layer.tiles W 0 0 ++ expectedRows layer.tiles W H 1 by
        rw [expectedRows, if_pos hH]]

theorem parse_data_inv (b64 : String → Except String (List Nat))
    (zlib gzip : List Nat → Except String (List Nat)) (data_node : XmlNode)
    (tiles : List (Option GID))
    (h : TileLayer.parse_data b64 zlib gzip data_node = .ok tiles) :
    ∃ bytes : List Nat,
      read_data_tag b64 zlib gzip data_node = .ok bytes ∧
      bytes.length % 4 = 0 ∧ tiles = gidsOfBytes bytes := by
  unfold TileLayer.parse_data at h
  repeat' split at h
  all_goals cases h
  exact ⟨_, by assumption, by assumption, rfl⟩

theorem tile_layer_from_xml_inv (b64 : String → Except String (List Nat))
    (zlib gzip : List Nat → Except String (List Nat)) (node : XmlNode) (tl : TileLayer)
    (h : TileLayer.from_xml b64 zlib gzip node = .ok tl) :
    ∃ (data_node : XmlNode) (bytes : List Nat),
      node.children.find? (fun n => n.tag == "data") = some data_node ∧
      read_data_tag b64 zlib gzip data_node = .ok bytes ∧
      bytes.length % 4 = 0 ∧
      tl.tiles = gidsOfBytes bytes ∧
      tl.tiles.length = bytes.length / 4 := by
  unfold TileLayer.from_xml at h
  repeat' split at h
  all_goals cases h
  obtain ⟨bytes, h1, h2, h3⟩ := parse_data_inv _ _ _ _ _ (by assumption)
  refine ⟨_, bytes, by assumption, h1, h2, h3, ?_⟩
  dsimp only
  rw [h3]
  exact gidsOfBytes_length bytes

/-- C6 counterexample: a `layer` node declaring a 2-by-2 grid whose `data`
payload decodes to just 4 bytes (one tile id) parses successfully with a
tiles sequence of length 1, not 2*2 = 4: nothing ties the decoded tile
count to the declared grid size. -/
theorem tile_layer_size_counterexample :
    (TileLayer.from_xml (fun _ => .ok [7, 0, 0, 0]) (fun b => .ok b) (fun b => .ok b)
        (.mk "layer" [("width", "2"), ("height", "2")]
          [.mk "data" [("encoding", "base64")] [] none] none)).map
      (fun tl => (tl.size, tl.tiles.length)) = .ok (Ivec2.new 2 2, 1) ∧
    (1 : Nat) ≠ 2 * 2 := by
  constructor
  · decide
  · decide

/-- C6 (amended): every successfully parsed tile layer holds the tile
sequence decoded from its `data` child - of length decoded-byte-count / 4,
which equals `width*height` exactly when the payload supplies that many
ids (no validation ties the two) - and the sequence is interpreted
row-major: on a layer whose tiles count matches its positive W-by-H size,
the right-down tile iterator yields cell `(x, y)` with `tiles[x + W*y]`,
rows top to bottom, cells left to right. -/
theorem tile_layer_claim :
    (∀ (b64 : String → Except String (List Nat))
      (zlib gzip : List Nat → Except String (List Nat)) (node : XmlNode) (tl : TileLayer),
      TileLayer.from_xml b64 zlib gzip node = .ok tl →
      ∃ (data_node : XmlNode) (bytes : List Nat),
        node.children.find? (fun n => n.tag == "data") = some data_node ∧
        read_data_tag b64 zlib gzip data_node = .ok bytes ∧
        bytes.length % 4 = 0 ∧
        tl.tiles = gidsOfBytes bytes ∧
        tl.tiles.length = bytes.length / 4) ∧
    (∀ (layer : TileLayer) (W H : Nat),
      layer.size.x = (W : Int) → layer.size.y = (H : Int) →
      layer.tiles.length = W * H → 0 < W →
      TileIterator.run .rightDown layer (Ivec2.new 0 0) =
        .ok (expectedRows layer.tiles W H 0)) :=
  ⟨tile_layer_from_xml_inv, tileIter_rowmajor⟩

/-- Witness for `tile_layer_claim`: a 2-by-2 layer whose payload decodes to
16 zero bytes. -/
theorem tile_layer_claim_witness :
    (∃ (data_node : XmlNode) (bytes : List Nat),
      (XmlNode.mk "layer" [("width", "2"), ("height", "2")]
        [XmlNode.mk "data" [("encoding", "base64")] [] none] none).children.find?
          (fun n => n.tag == "data") = some data_node ∧
      read_data_tag (fun _ => .ok [0, 0, 0, 0, 0, 0, 0, 0, 0, 0, 0, 0, 0, 0, 0, 0])
          (fun b => .ok b) (fun b => .ok b) data_node = .ok bytes ∧
      bytes.length % 4 = 0 ∧
      (TileLayer.mk none "" (Ivec2.new 2 2) (Color.from_argb 255 255 255 255)
          [none, none, none, none] PropertyContainer.new).tiles = gidsOfBytes bytes ∧
      (TileLayer.mk none "" (Ivec2.new 2 2) (Color.from_argb 255 255 255 255)
          [none, none, none, none] PropertyContainer.new).tiles.length =
        bytes.length / 4) ∧
    TileIterator.run .rightDown
        (TileLayer.mk none "" (Ivec2.new 2 2) (Color.from_argb 255 255 255 255)
          [none, none, none, none] PropertyContainer.new) (Ivec2.new 0 0) =
      .ok (expectedRows [none, none, none, none] 2 2 0) := by
  constructor
  · exact tile_layer_claim.1 (fun _ => .ok [0, 0, 0, 0, 0, 0, 0, 0, 0, 0, 0, 0, 0, 0, 0, 0])
      (fun b => .ok b) (fun b => .ok b)
      (XmlNode.mk "layer" [("width", "2"), ("height", "2")]
        [XmlNode.mk "data" [("encoding", "base64")] [] none] none)
      (TileLayer.mk none "" (Ivec2.new 2 2) (Color.from_argb 255 255 255 255)
        [none, none, none, none] PropertyContainer.new) (by decide)
  · exact tile_layer_claim.2
      (TileLayer.mk none "" (Ivec2.new 2 2) (Color.from_argb 255 255 255 255)
        [none, none, none, none] PropertyContainer.new) 2 2 (by decide) (by decide)
      (by decide) (by decide)

/-- One step of `LayerIterator::next` from `src/lib.rs`.  The state is the
stack of "remaining sibling" iterators (`iter_stack`), with the top of the
stack first.  `pops` counts the exhausted iterators popped so far in this
call.  An exhausted top iterator is popped (`pops += 1`); a group layer is
yielded and its content pushed; any other layer is yielded.  `none` is the
iterator's end: the accumulated pops of the final call are discarded with
it, exactly as in the source, where `next` returns `None` without ever
reporting them. -/
def LayerIterator.next : List (List Layer) → Nat →
    Option ((Layer × Nat) × List (List Layer))
  | [], _ => none
  | [] :: rest, pops => LayerIterator.next rest (pops + 1)
  | (l :: ls) :: rest, pops =>
    match l with
    | .group g content => some ((Layer.group g content, pops), content :: ls :: rest)
    | _ => some ((l, pops), ls :: rest)

/-- Total number of layers in a forest, group contents included. -/
def layerListCount : List Layer → Nat
  | [] => 0
  | .group _ c :: ls => 1 + layerListCount c + layerListCount ls
  | _ :: ls => 1 + layerListCount ls

/-- Number of layers remaining in an iterator stack. -/
def stackSize : List (List Layer) → Nat
  | [] => 0
  | ls :: rest => layerListCount ls + stackSize rest

theorem layerIter_next_none : ∀ (st : List (List Layer)) (p : Nat),
    LayerIterator.next st p = none → stackSize st = 0
  | [], _, _ => rfl
  | [] :: rest, p, h => by
    have := layerIter_next_none rest (p + 1) h
    simp [stackSize, layerListCount, this]
  | (l :: ls) :: rest, p, h => by
    cases l <;> simp [LayerIterator.next] at h

theorem layerIter_next_size : ∀ (st : List (List Layer)) (p : Nat)
    {item : Layer × Nat} {st' : List (List Layer)},
    LayerIterator.next st p = some (item, st') → stackSize st = stackSize st' + 1
  | [], _, _, _, h => by cases h
  | [] :: rest, p, item, st', h => by
    have := layerIter_next_size rest (p + 1) h
    simp only [stackSize, layerListCount]
    omega
  | (l :: ls) :: rest, p, item, st', h => by
    cases l with
    | tile t =>
      cases h
      simp only [stackSize, layerListCount]
      omega
    | object o =>
      cases h
      simp only [stackSize, layerListCount]
      omega
    | group g content =>
      cases h
      simp only [stackSize, layerListCount]
      omega

/-- Fuelled driver of the layer iterator, collecting every yielded
`(layer, pops)` item. -/
def LayerIterator.runF : Nat → List (List Layer) → List (Layer × Nat)
  | 0, _ => []
  | fuel + 1, st =>
    match LayerIterator.next st 0 with
    | none => []
    | some (item, st') => item :: LayerIterator.runF fuel st'

/-- The layer iterator driven to completion: `stackSize` is exactly the
number of items still to be yielded, so the fuel runs out precisely when
the iterator is exhausted (`run_eq`). -/
def LayerIterator.run (st : List (List Layer)) : List (Layer × Nat) :=
  LayerIterator.runF (stackSize st) st

/-- Unfolding rule for `LayerIterator.run`. -/
theorem layerIter_run_eq (st : List (List Layer)) :
    LayerIterator.run st =
      (match LayerIterator.next st 0 with
      | none => []
      | some (item, st') => item :: LayerIterator.run st') := by
  cases hnext : LayerIterator.next st 0 with
  | none =>
    have h0 : stackSize st = 0 := layerIter_next_none st 0 hnext
    rw [show LayerIterator.run st = LayerIterator.runF (stackSize st) st from rfl, h0]
    rfl
  | some x =>
    obtain ⟨item, st'⟩ := x
    have hsz : stackSize st = stackSize st' + 1 := layerIter_next_size st 0 hnext
    rw [show LayerIterator.run st = LayerIterator.runF (stackSize st) st from rfl, hsz]
    simp only [LayerIterator.runF, hnext]
    rfl

/-- Add `k` to the pop count of the first item of a yielded sequence. -/
def bumpFirstBy (k : Nat) : List (Layer × Nat) → List (Layer × Nat)
  | [] => []
  | (l, p) :: xs => (l, p + k) :: xs

theorem layerIter_next_shift : ∀ (st : List (List Layer)) (p : Nat),
    LayerIterator.next st p =
      (LayerIterator.next st 0).map (fun x => ((x.1.1, x.1.2 + p), x.2))
  | [], p => rfl
  | [] :: rest, p => by
    show LayerIterator.next rest (p + 1) =
      (LayerIterator.next rest 1).map (fun x => ((x.1.1, x.1.2 + p), x.2))
    rw [layerIter_next_shift rest (p + 1), layerIter_next_shift rest 1]
    cases LayerIterator.next rest 0 with
    | none => rfl
    | some x => simp [Option.map]; omega
  | (l :: ls) :: rest, p => by
    cases l <;> simp [LayerIterator.next, Option.map]

theorem layerIter_run_nil_cons (rest : List (List Layer)) :
    LayerIterator.run ([] :: rest) = bumpFirstBy 1 (LayerIterator.run rest) := by
  rw [layerIter_run_eq]
  have h0 : LayerIterator.next ([] :: rest) 0 = LayerIterator.next rest 1 := rfl
  rw [h0, layerIter_next_shift rest 1]
  rw [layerIter_run_eq rest]
  cases hn : LayerIterator.next rest 0 with
  | none => rfl
  | some x =>
    obtain ⟨⟨l, k⟩, st'⟩ := x
    simp [Option.map, bumpFirstBy]

theorem layerIter_run_tile (t : TileLayer) (ls : List Layer) (rest : List (List Layer)) :
    LayerIterator.run ((Layer.tile t :: ls) :: rest) =
      (Layer.tile t, 0) :: LayerIterator.run (ls :: rest) := by
  rw [layerIter_run_eq]
  rfl

theorem layerIter_run_object (o : ObjectLayer) (ls : List Layer)
    (rest : List (List Layer)) :
    LayerIterator.run ((Layer.object o :: ls) :: rest) =
      (Layer.object o, 0) :: LayerIterator.run (ls :: rest) := by
  rw [layerIter_run_eq]
  rfl

theorem layerIter_run_group (g : GroupLayerData) (c ls : List Layer)
    (rest : List (List Layer)) :
    LayerIterator.run ((Layer.group g c :: ls) :: rest) =
      (Layer.group g c, 0) :: LayerIterator.run (c :: ls :: rest) := by
  rw [layerIter_run_eq]
  rfl


/-- Depth-first pre-order listing of a layer forest: each layer before its
group content, content before later siblings. -/
def layersPreorder : List Layer → List Layer
  | [] => []
  | .group g c :: ls => Layer.group g c :: (layersPreorder c ++ layersPreorder ls)
  | l :: ls => l :: layersPreorder ls

/-- Number of group layers in a forest, nested groups included. -/
def groupCount : List Layer → Nat
  | [] => 0
  | .group _ c :: ls => 1 + groupCount c + groupCount ls
  | _ :: ls => groupCount ls

/-- Number of group layers with at least one child layer; since the
iterator yields every layer of the forest, these are exactly the group
layers with at least one yielded child. -/
def groupsWithChild : List Layer → Nat
  | [] => 0
  | .group _ [] :: ls => groupsWithChild ls
  | .group _ c :: ls => 1 + groupsWithChild c + groupsWithChild ls
  | _ :: ls => groupsWithChild ls

/-- Modelled from the spec: the event stream of a depth-first traversal -
`some layer` when a layer is yielded, `none` when a group scope is exited
(right after the group's subtree). -/
def evFs : List Layer → List (Option Layer)
  | [] => []
  | .group g c :: ls => some (Layer.group g c) :: ((evFs c ++ [none]) ++ evFs ls)
  | l :: ls => some l :: evFs ls

/-- Modelled from the spec: turn an event stream into `(layer, pop_count)`
items, `pop_count` being the number of scope exits since the previous
yielded item (with `acc` exits already pending); exits after the last
yielded item produce no item. -/
def annotate (acc : Nat) : List (Option Layer) → List (Layer × Nat)
  | [] => []
  | none :: es => annotate (acc + 1) es
  | some l :: es => (l, acc) :: annotate 0 es

/-- Event stream of a whole iterator stack: exhausting one stack entry is a
scope exit, after which the entry below continues. -/
def evStack : List (List Layer) → List (Option Layer)
  | [] => []
  | ls :: rest => evFs ls ++ none :: evStack rest

/-- Group scopes whose exit happens after the final yielded item of the
forest: the groups on the trailing last-child spine. -/
def pendF : List Layer → Nat
  | .group _ c :: [] => 1 + pendF c
  | _ :: ls => pendF ls
  | [] => 0

/-- Number of group layers across all stack entries. -/
def groupStack : List (List Layer) → Nat
  | [] => 0
  | ls :: rest => groupCount ls + groupStack rest

/-- Pops the iterator accumulates after its final yielded item and then
discards when returning `None`: one per remaining stack frame plus the
trailing last-child-spine groups of the topmost frame that still yields. -/
def pendStack : List (List Layer) → Nat
  | [] => 0
  | ls :: rest =>
    if stackSize rest = 0 then pendF ls + 1 + rest.length else pendStack rest

/-- Sum of the yielded `pop_count`s. -/
def popSum (xs : List (Layer × Nat)) : Nat := (xs.map Prod.snd).sum

theorem layerIter_run_nil : LayerIterator.run [] = [] := by
  rw [layerIter_run_eq]
  rfl

theorem layerIter_run_length : ∀ st : List (List Layer),
    (LayerIterator.run st).length = stackSize st := fun st => by
  rw [layerIter_run_eq]
  cases hnext : LayerIterator.next st 0 with
  | none =>
    have h0 : stackSize st = 0 := layerIter_next_none st 0 hnext
    simp [h0]
  | some x =>
    obtain ⟨item, st'⟩ := x
    have hsz : stackSize st = stackSize st' + 1 := layerIter_next_size st 0 hnext
    have ih := layerIter_run_length st'
    simp [ih, hsz]
termination_by st => stackSize st
decreasing_by simp_wf; omega

theorem layerIter_run_empty (st : List (List Layer)) (h : stackSize st = 0) :
    LayerIterator.run st = [] := by
  have hl := layerIter_run_length st
  rw [h] at hl
  exact List.length_eq_zero.mp hl

theorem layerListCount_eq_zero : ∀ {ls : List Layer}, layerListCount ls = 0 → ls = []
  | [], _ => rfl
  | .tile t :: ls, h => by simp only [layerListCount] at h; omega
  | .object o :: ls, h => by simp only [layerListCount] at h; omega
  | .group g c :: ls, h => by simp only [layerListCount] at h; omega

theorem layerListCount_pos : ∀ (l : Layer) (ls : List Layer),
    0 < layerListCount (l :: ls)
  | .tile t, ls => by simp only [layerListCount]; omega
  | .object o, ls => by simp only [layerListCount]; omega
  | .group g c, ls => by simp only [layerListCount]; omega

theorem groupStack_zero : ∀ st : List (List Layer),
    stackSize st = 0 → groupStack st = 0
  | [], _ => rfl
  | ls :: rest, h => by
    simp only [stackSize] at h
    have h2 : stackSize rest = 0 := by omega
    have h3 : ls = [] := layerListCount_eq_zero (by omega)
    subst h3
    simp [groupStack, groupCount, groupStack_zero rest h2]

theorem pendF_tile (t : TileLayer) (ls : List Layer) :
    pendF (Layer.tile t :: ls) = pendF ls := by
  cases ls <;> simp [pendF]

theorem pendF_object (o : ObjectLayer) (ls : List Layer) :
    pendF (Layer.object o :: ls) = pendF ls := by
  cases ls <;> simp [pendF]

theorem pendF_group_cons (g : GroupLayerData) (c : List Layer) (a : Layer)
    (ls : List Layer) :
    pendF (Layer.group g c :: a :: ls) = pendF (a :: ls) := by
  simp [pendF]

theorem pendStack_group (g : GroupLayerData) (c ls : List Layer)
    (rest : List (List Layer)) :
    pendStack ((Layer.group g c :: ls) :: rest) = pendStack (c :: ls :: rest) := by
  cases ls with
  | nil =>
    by_cases h : stackSize rest = 0
    · simp only [pendStack, stackSize, layerListCount, h, if_true]
      simp [pendF, h]
      omega
    · simp only [pendStack, stackSize, layerListCount, h, if_false]
      simp [h]
  | cons a ls' =>
    have hpos := layerListCount_pos a ls'
    have hne : ¬ (stackSize ((a :: ls') :: rest) = 0) := by
      simp only [stackSize]; omega
    by_cases h : stackSize rest = 0
    · simp only [pendStack, hne, if_false, h, if_true, pendF_group_cons]
    · simp only [pendStack, hne, if_false, h]

theorem popSum_bumpFirstBy_ne (k : Nat) (xs : List (Layer × Nat)) (h : xs ≠ []) :
    popSum (bumpFirstBy k xs) = k + popSum xs := by
  cases xs with
  | nil => exact absurd rfl h
  | cons x xs =>
    obtain ⟨l, p⟩ := x
    simp [popSum, bumpFirstBy]
    omega

theorem bumpFirstBy_annotate (k : Nat) : ∀ (es : List (Option Layer)) (a : Nat),
    bumpFirstBy k (annotate a es) = annotate (a + k) es
  | [], a => by simp [annotate, bumpFirstBy]
  | none :: es, a => by
    simp only [annotate]
    rw [bumpFirstBy_annotate k es (a + 1)]
    congr 1
    omega
  | some l :: es, a => by simp [annotate, bumpFirstBy]

theorem annotate_append_none : ∀ (es : List (Option Layer)) (a : Nat),
    annotate a (es ++ [none]) = annotate a es
  | [], a => by simp [annotate]
  | none :: es, a => by
    simp only [List.cons_append, annotate]
    exact annotate_append_none es (a + 1)
  | some l :: es, a => by
    simp [annotate, annotate_append_none es 0]

theorem annotate_map_fst : ∀ (es : List (Option Layer)) (a : Nat),
    (annotate a es).map Prod.fst = es.filterMap id
  | [], a => by simp [annotate]
  | none :: es, a => by simp [annotate, annotate_map_fst es (a + 1)]
  | some l :: es, a => by simp [annotate, annotate_map_fst es 0]

theorem annotate_length : ∀ (es : List (Option Layer)) (a : Nat),
    (annotate a es).length = (es.filterMap id).length
  | [], a => by simp [annotate]
  | none :: es, a => by simp [annotate, annotate_length es (a + 1)]
  | some l :: es, a => by simp [annotate, annotate_length es 0]

theorem evFs_filterMap : ∀ ls : List Layer,
    (evFs ls).filterMap id = layersPreorder ls
  | [] => by simp [evFs, layersPreorder]
  | .tile t :: ls => by
    simp [evFs, layersPreorder, evFs_filterMap ls]
  | .object o :: ls => by
    simp [evFs, layersPreorder, evFs_filterMap ls]
  | .group g c :: ls => by
    simp [evFs, layersPreorder, evFs_filterMap c, evFs_filterMap ls]
termination_by ls => sizeOf ls
decreasing_by all_goals simp_wf <;> omega

theorem layerIter_run_annotate : ∀ st : List (List Layer),
    LayerIterator.run st = annotate 0 (evStack st)
  | [] => by
    rw [layerIter_run_nil]
    simp [evStack, annotate]
  | [] :: rest => by
    rw [layerIter_run_nil_cons, layerIter_run_annotate rest,
      bumpFirstBy_annotate 1 (evStack rest) 0]
    simp [evStack, evFs, annotate]
  | (Layer.tile t :: ls) :: rest => by
    rw [layerIter_run_tile, layerIter_run_annotate (ls :: rest)]
    simp [evStack, evFs, annotate]
  | (Layer.object o :: ls) :: rest => by
    rw [layerIter_run_object, layerIter_run_annotate (ls :: rest)]
    simp [evStack, evFs, annotate]
  | (Layer.group g c :: ls) :: rest => by
    rw [layerIter_run_group, layerIter_run_annotate (c :: ls :: rest)]
    simp [evStack, evFs, annotate]
termination_by st => 2 * stackSize st + st.length
decreasing_by all_goals simp only [stackSize, layerListCount, List.length_cons]; omega

theorem layerIter_run_popSum : ∀ st : List (List Layer),
    popSum (LayerIterator.run st) + pendStack st = st.length + groupStack st
  | [] => by
    rw [layerIter_run_nil]
    simp [popSum, pendStack, groupStack]
  | [] :: rest => by
    rw [layerIter_run_nil_cons]
    by_cases h : stackSize rest = 0
    · rw [layerIter_run_empty rest h]
      simp [bumpFirstBy, popSum, pendStack, h, groupStack,
        groupStack_zero rest h, pendF, groupCount]
      omega
    · have ih := layerIter_run_popSum rest
      have hne : LayerIterator.run rest ≠ [] := by
        intro he
        have hl := layerIter_run_length rest
        rw [he] at hl
        exact h hl.symm
      rw [popSum_bumpFirstBy_ne 1 _ hne]
      simp only [pendStack, h, if_false, List.length_cons, groupStack,
        groupCount]
      omega
  | (Layer.tile t :: ls) :: rest => by
    rw [layerIter_run_tile]
    have ih := layerIter_run_popSum (ls :: rest)
    have hpend : pendStack ((Layer.tile t :: ls) :: rest) =
        pendStack (ls :: rest) := by
      simp only [pendStack, pendF_tile]
    have hsum : popSum ((Layer.tile t, 0) :: LayerIterator.run (ls :: rest)) =
        popSum (LayerIterator.run (ls :: rest)) := by
      simp [popSum]
    rw [hsum, hpend]
    simp only [List.length_cons, groupStack, groupCount] at ih ⊢
    omega
  | (Layer.object o :: ls) :: rest => by
    rw [layerIter_run_object]
    have ih := layerIter_run_popSum (ls :: rest)
    have hpend : pendStack ((Layer.object o :: ls) :: rest) =
        pendStack (ls :: rest) := by
      simp only [pendStack, pendF_object]
    have hsum : popSum ((Layer.object o, 0) :: LayerIterator.run (ls :: rest)) =
        popSum (LayerIterator.run (ls :: rest)) := by
      simp [popSum]
    rw [hsum, hpend]
    simp only [List.length_cons, groupStack, groupCount] at ih ⊢
    omega
  | (Layer.group g c :: ls) :: rest => by
    rw [layerIter_run_group]
    have ih := layerIter_run_popSum (c :: ls :: rest)
    have hsum : popSum ((Layer.group g c, 0) ::
        LayerIterator.run (c :: ls :: rest)) =
        popSum (LayerIterator.run (c :: ls :: rest)) := by
      simp [popSum]
    rw [hsum, pendStack_group]
    simp only [List.length_cons, groupStack, groupCount] at ih ⊢
    omega
termination_by st => 2 * stackSize st + st.length
decreasing_by all_goals simp only [stackSize, layerListCount, List.length_cons]; omega

/-- A concrete group layer for the iteration counterexample. -/
def sampleGroup : GroupLayerData :=
  ⟨none, "G", ⟨0, 0⟩, "1", true, Color.default, .new⟩

/-- A concrete tile layer for the iteration counterexample. -/
def sampleTile : TileLayer :=
  ⟨none, "T", ⟨0, 0⟩, Color.default, [], .new⟩

/-- C3: iterating a layer forest `ls` from the initial stack (as
`Map::iter_layers` does) yields exactly `layerListCount ls` items; the
yielded layers are the depth-first pre-order of the forest; the item
sequence is the annotation of the depth-first event stream, so each
`pop_count` is the number of group scopes exited since the previous
yielded item (0 for the very first item and for siblings); and the yielded
`pop_count`s sum to the number of group layers minus the groups on the
trailing last-child spine (`pendF ls`), whose scope exits follow the final
yielded item and are discarded by the `None` return - not to the number of
group layers with at least one yielded child, as originally claimed. -/
theorem layer_iterator_claim (ls : List Layer) :
    (LayerIterator.run [ls]).length = layerListCount ls ∧
    (LayerIterator.run [ls]).map Prod.fst = layersPreorder ls ∧
    LayerIterator.run [ls] = annotate 0 (evFs ls) ∧
    popSum (LayerIterator.run [ls]) + pendF ls = groupCount ls := by
  have hann : LayerIterator.run [ls] = annotate 0 (evFs ls) := by
    rw [layerIter_run_annotate [ls]]
    show annotate 0 (evFs ls ++ none :: evStack []) = annotate 0 (evFs ls)
    rw [show evStack [] = ([] : List (Option Layer)) from rfl]
    exact annotate_append_none (evFs ls) 0
  refine ⟨?_, ?_, hann, ?_⟩
  · have := layerIter_run_length [ls]
    simpa [stackSize] using this
  · rw [hann, annotate_map_fst, evFs_filterMap]
  · have hinv := layerIter_run_popSum [ls]
    have hpend : pendStack [ls] = pendF ls + 1 := by
      simp [pendStack, stackSize]
    rw [hpend] at hinv
    simp only [List.length_cons, List.length_nil, groupStack, groupCount] at hinv
    omega

/-- C3 counterexample to the original pop-count-sum clause: for the forest
`[group G [tile T]]` the iterator yields `(G, 0)` and `(T, 0)`, so the
`pop_count`s sum to 0, yet the number of group layers with at least one
yielded child is 1 - the group scope is exited after the final yielded
item and the pending pop is discarded. -/
theorem layer_iterator_pop_sum_counterexample :
    popSum (LayerIterator.run
      [[Layer.group sampleGroup [Layer.tile sampleTile]]]) = 0 ∧
    groupsWithChild [Layer.group sampleGroup [Layer.tile sampleTile]] = 1 := by
  constructor
  · rw [layerIter_run_group, layerIter_run_tile, layerIter_run_nil_cons,
      layerIter_run_nil_cons, layerIter_run_nil]
    simp [popSum, bumpFirstBy]
  · simp [groupsWithChild]

end Tego
